import Mathlib

/-!
Shallow embedding of the StatusLED engine (src/StatusLed.cpp, here the file
src/unnamed/part_003) together with the configuration header
include/StatusLed/Config.h.  Machine integers are modelled as Nat with
explicit reduction modulo 2^8, 2^16 or 2^32 exactly at the places where the
C++ code casts or where unsigned arithmetic wraps.  The public header
include/StatusLed/StatusLed.h (enum values, struct field defaults) is not
part of the sources; the few facts taken from it are modelled from the spec
and marked as such in doc comments.  The transmission backend is the null
backend used by the host test suite (src/StatusLedBackendNull.cpp): begin
returns success, canShow is true and show succeeds.
-/

namespace StatusLed

/-- 8-bit RGB color (RgbColor of the public header StatusLed.h,
concatenated into src/include/StatusLed/BackendConfig.h): three independent
8-bit channels, zero defaults, exact field-wise equality. -/
structure RgbColor where
  r : Nat := 0
  g : Nat := 0
  b : Nat := 0
deriving DecidableEq, Repr

/-- Temporal modes, the closed Mode enumeration of StatusLed.h (the full
list appears in isValidMode and updateLed of src/unnamed/part_003). -/
inductive Mode where
  | Off
  | Solid
  | Dim
  | BlinkSlow
  | BlinkFast
  | DoubleBlink
  | TripleBlink
  | Beacon
  | Strobe
  | FadeIn
  | FadeOut
  | PulseSoft
  | PulseSharp
  | Breathing
  | Heartbeat
  | Throb
  | FlickerCandle
  | Glitch
  | Alternate
deriving DecidableEq, Repr

/-- Per-mode tunables (ModeParams of the public header StatusLed.h,
concatenated into src/include/StatusLed/BackendConfig.h).  Field defaults
are the header's member initializers. -/
structure ModeParams where
  periodMs : Nat := 1000
  onMs : Nat := 500
  riseMs : Nat := 800
  fallMs : Nat := 800
  minLevel : Nat := 0
  maxLevel : Nat := 255
deriving DecidableEq, Repr

/-- Error taxonomy (Err of Status.h, which is not among the sources;
modelled from spec section 7 and from the uses in the sources). -/
inductive Err where
  | OK
  | INVALID_CONFIG
  | NOT_INITIALIZED
  | RESOURCE_BUSY
  | HARDWARE_FAULT
  | OUT_OF_MEMORY
  | INTERNAL_ERROR
deriving DecidableEq, Repr

/-- Structured result: category, numeric detail, static diagnostic text. -/
structure Status where
  code : Err
  detail : Int
  msg : String
deriving DecidableEq, Repr

/-- Success result constructor. -/
def Ok : Status := { code := Err.OK, detail := 0, msg := "" }

/-- Status.ok of the error model. -/
def statusOk (st : Status) : Bool := st.code = Err.OK

/-- Configuration (include/StatusLed/Config.h).  colorOrder is kept as the
raw 8-bit enumeration value so that out-of-range values can be expressed;
GRB = 0 and RGB = 1 are the members of the ColorOrder enumeration. -/
structure Config where
  dataPin : Int := -1
  ledCount : Nat := 0
  colorOrder : Nat := 0
  rmtChannel : Nat := 0
  globalBrightness : Nat := 255
  smoothStepMs : Nat := 20
deriving DecidableEq, Repr

/-- kMaxLedCount of the public header: fixed capacity of the LED array,
matching the valid ledCount range 1..10 of Config.h. -/
def kMaxLeds : Nat := 10

/-- kDimLevel of src/unnamed/part_003. -/
def kDimLevel : Nat := 48

/-- kNever of src/unnamed/part_003: the reserved timestamp sentinel. -/
def kNever : Nat := 4294967295

/-- kMinSmoothStepMs of src/unnamed/part_003. -/
def kMinSmoothStepMs : Nat := 5

/-- kMaxSmoothStepMs of src/unnamed/part_003. -/
def kMaxSmoothStepMs : Nat := 1000

/-- One entry of a discrete pattern table (PatternStep). -/
structure PatternStep where
  durationMs : Nat
  intensity : Nat
  useAlt : Bool
deriving DecidableEq, Repr

/-- kPatternDoubleBlink. -/
def kPatternDoubleBlink : List PatternStep :=
  [⟨120, 255, false⟩, ⟨120, 0, false⟩, ⟨120, 255, false⟩, ⟨600, 0, false⟩]

/-- kPatternTripleBlink. -/
def kPatternTripleBlink : List PatternStep :=
  [⟨90, 255, false⟩, ⟨90, 0, false⟩, ⟨90, 255, false⟩, ⟨90, 0, false⟩,
   ⟨90, 255, false⟩, ⟨600, 0, false⟩]

/-- kPatternBeacon. -/
def kPatternBeacon : List PatternStep := [⟨80, 255, false⟩, ⟨3920, 0, false⟩]

/-- kPatternStrobe. -/
def kPatternStrobe : List PatternStep := [⟨50, 255, false⟩, ⟨50, 0, false⟩]

/-- kPatternHeartbeat. -/
def kPatternHeartbeat : List PatternStep :=
  [⟨70, 255, false⟩, ⟨70, 0, false⟩, ⟨70, 200, false⟩, ⟨600, 0, false⟩]

/-- kPatternPolice. -/
def kPatternPolice : List PatternStep :=
  [⟨120, 255, false⟩, ⟨60, 0, false⟩, ⟨120, 255, true⟩, ⟨400, 0, false⟩]

/-- StatusPreset values of the public header StatusLed.h (concatenated
into src/include/StatusLed/BackendConfig.h): presets are numbered in
declaration order starting at Off = 0.  A preset is carried as its raw
8-bit value so that unknown values can be expressed. -/
def presetOff : Nat := 0

/-- StatusPreset::Ready. -/
def presetReady : Nat := 1

/-- StatusPreset::Busy. -/
def presetBusy : Nat := 2

/-- StatusPreset::Warning. -/
def presetWarning : Nat := 3

/-- StatusPreset::Error. -/
def presetError : Nat := 4

/-- StatusPreset::Critical. -/
def presetCritical : Nat := 5

/-- StatusPreset::Updating. -/
def presetUpdating : Nat := 6

/-- StatusPreset::Info. -/
def presetInfo : Nat := 7

/-- StatusPreset::Maintenance. -/
def presetMaintenance : Nat := 8

/-- StatusPreset::AlarmPolice. -/
def presetAlarmPolice : Nat := 9

/-- StatusPreset::HazardAmber. -/
def presetHazardAmber : Nat := 10

/-- One row of the preset catalog (PresetDef). -/
structure PresetDef where
  preset : Nat
  mode : Mode
  primary : RgbColor
  secondary : RgbColor
  useSecondary : Bool
deriving DecidableEq, Repr

/-- kColorOff. -/
def kColorOff : RgbColor := ⟨0, 0, 0⟩

/-- kColorGreen. -/
def kColorGreen : RgbColor := ⟨0, 255, 0⟩

/-- kColorOrange. -/
def kColorOrange : RgbColor := ⟨255, 128, 0⟩

/-- kColorAmber. -/
def kColorAmber : RgbColor := ⟨255, 180, 0⟩

/-- kColorRed. -/
def kColorRed : RgbColor := ⟨255, 0, 0⟩

/-- kColorCyan. -/
def kColorCyan : RgbColor := ⟨0, 255, 255⟩

/-- kColorBlue. -/
def kColorBlue : RgbColor := ⟨0, 0, 255⟩

/-- kColorPurple. -/
def kColorPurple : RgbColor := ⟨128, 0, 255⟩

/-- kPresets, the static preset catalog of src/unnamed/part_003. -/
def kPresets : List PresetDef :=
  [⟨presetOff, Mode.Off, kColorOff, kColorOff, false⟩,
   ⟨presetReady, Mode.Solid, kColorGreen, kColorOff, false⟩,
   ⟨presetBusy, Mode.PulseSoft, kColorOrange, kColorOff, false⟩,
   ⟨presetWarning, Mode.BlinkSlow, kColorAmber, kColorOff, false⟩,
   ⟨presetError, Mode.BlinkFast, kColorRed, kColorOff, false⟩,
   ⟨presetCritical, Mode.Strobe, kColorRed, kColorOff, false⟩,
   ⟨presetUpdating, Mode.Breathing, kColorCyan, kColorOff, false⟩,
   ⟨presetInfo, Mode.Solid, kColorBlue, kColorOff, false⟩,
   ⟨presetMaintenance, Mode.DoubleBlink, kColorPurple, kColorOff, false⟩,
   ⟨presetAlarmPolice, Mode.Alternate, kColorRed, kColorBlue, true⟩,
   ⟨presetHazardAmber, Mode.DoubleBlink, kColorAmber, kColorOff, false⟩]

/-- findPreset: linear scan of the preset catalog. -/
def findPreset (preset : Nat) : Option PresetDef :=
  kPresets.find? (fun d => d.preset == preset)

/-- timeReached of src/unnamed/part_003: wraparound-safe deadline check,
true when the 32-bit difference now - target is non-negative as int32. -/
def timeReached (now target : Nat) : Bool :=
  (now % 4294967296 + 4294967296 - target % 4294967296) % 4294967296 < 2147483648

/-- scale8 of src/unnamed/part_003: 8-bit multiply-and-normalize with
round-to-nearest in a 16-bit intermediate, cast back to uint8. -/
def scale8 (value scaleFactor : Nat) : Nat :=
  ((value * scaleFactor + 127) / 255) % 256

/-- ease8InOut of src/unnamed/part_003.  The argument is a uint8; the bit
test x AND 0x80 is the test 128 <= x. -/
def ease8InOut (x : Nat) : Nat :=
  let y := if 128 ≤ x then 255 - x else x
  let z := y * y / 128
  let out := if 255 < z then 255 else z
  if 128 ≤ x then 255 - out else out

/-- lerpU8 of src/unnamed/part_003.  minVal and maxVal are uint8, pos and
span are uint16.  The subtraction maxVal - minVal is performed in int and
cast to uint16 (hence the reduction modulo 65536); the product is exact in
uint32 and the quotient is cast to uint16; the final sum is cast to uint8. -/
def lerpU8 (minVal maxVal pos span : Nat) : Nat :=
  if span = 0 then maxVal
  else
    let range := (maxVal + 65536 - minVal) % 65536
    let scaled := range * pos / span % 65536
    (minVal + scaled) % 256

/-- sanitizeParams of src/unnamed/part_003. -/
def sanitizeParams (mode : Mode) (params : ModeParams) : ModeParams :=
  let params := if params.periodMs < 2 then { params with periodMs := 2 } else params
  let params := if params.periodMs < params.onMs then { params with onMs := params.periodMs } else params
  let params := if params.maxLevel < params.minLevel then
      { params with maxLevel := params.minLevel, minLevel := params.maxLevel } else params
  let params := if mode = Mode.FadeIn ∧ params.riseMs = 0 then { params with riseMs := 1 } else params
  if mode = Mode.FadeOut ∧ params.fallMs = 0 then { params with fallMs := 1 } else params

/-- isValidMode of src/unnamed/part_003: total on the closed enumeration. -/
def isValidMode (_mode : Mode) : Bool := true

/-- getModeDefaults of src/unnamed/part_003. -/
def getModeDefaults (mode : Mode) : ModeParams :=
  let params : ModeParams := {}
  match mode with
  | Mode.BlinkSlow => { params with periodMs := 1000, onMs := 500 }
  | Mode.BlinkFast => { params with periodMs := 250, onMs := 125 }
  | Mode.Strobe => { params with periodMs := 100, onMs := 50 }
  | Mode.FadeIn => { params with riseMs := 1000 }
  | Mode.FadeOut => { params with fallMs := 1000 }
  | Mode.PulseSoft => { params with periodMs := 2000, minLevel := 0, maxLevel := 255 }
  | Mode.PulseSharp => { params with periodMs := 800, minLevel := 0, maxLevel := 255 }
  | Mode.Breathing => { params with periodMs := 3000, minLevel := 20, maxLevel := 255 }
  | Mode.Throb => { params with periodMs := 4000, minLevel := 0, maxLevel := 255 }
  | _ => params

/-- Per-LED state (LedState of the public header StatusLed.h, concatenated
into src/include/StatusLed/BackendConfig.h).  Field defaults are the
header's member initializers: brightness and resumeBrightness start at 255,
the flicker LFSR at 0xABCDE = 703710, everything else zero / Off. -/
structure LedState where
  mode : Mode := Mode.Off
  params : ModeParams := {}
  color : RgbColor := {}
  altColor : RgbColor := {}
  useAlt : Bool := false
  intensity : Nat := 0
  brightness : Nat := 255
  phase : Nat := 0
  lfsr : Nat := 703710
  modeStartMs : Nat := 0
  nextUpdateMs : Nat := 0
  phaseEndMs : Nat := 0
  currentPreset : Nat := 0
  defaultPreset : Nat := 0
  tempPreset : Nat := 0
  tempDurationMs : Nat := 0
  tempUntilMs : Nat := 0
  tempPending : Bool := false
  tempActive : Bool := false
  resumeMode : Mode := Mode.Off
  resumeParams : ModeParams := {}
  resumeColor : RgbColor := {}
  resumeAltColor : RgbColor := {}
  resumeBrightness : Nat := 255
  resumePreset : Nat := 0
deriving DecidableEq, Repr

/-- Default LED slot value. -/
def ledDefault : LedState := {}

/-- Engine state: the StatusLed class instance fields used by
src/unnamed/part_003 (the backend pointer is the null backend and carries
no state). -/
structure EngineState where
  initialized : Bool := false
  config : Config := {}
  lastTickMs : Nat := 0
  frameDirty : Bool := false
  leds : List LedState := List.replicate kMaxLeds ledDefault
  frame : List RgbColor := List.replicate kMaxLeds kColorOff
  lastStatus : Status := Ok
deriving DecidableEq, Repr

/-- setLast: record the last status and return it. -/
def setLast (e : EngineState) (st : Status) : Status × EngineState :=
  (st, { e with lastStatus := st })

/-- indexValid of the engine: index < configured LED count. -/
def indexValid (e : EngineState) (index : Nat) : Bool :=
  index < e.config.ledCount

/-- refreshLedOutput(index, intensity, useAlt) of src/unnamed/part_003:
computes the output color and writes frame and dirty flag only when the
computed color differs from the stored one. -/
def refreshLedW (e : EngineState) (index intensity : Nat) (useAlt : Bool) : EngineState :=
  let led := e.leds.getD index ledDefault
  let base := if useAlt then led.altColor else led.color
  let scaled1 := scale8 intensity led.brightness
  let scaled2 := scale8 scaled1 e.config.globalBrightness
  let out : RgbColor := ⟨scale8 base.r scaled2, scale8 base.g scaled2, scale8 base.b scaled2⟩
  { e with
    frame := if e.frame.getD index kColorOff ≠ out then e.frame.set index out else e.frame,
    frameDirty := if e.frame.getD index kColorOff ≠ out then true else e.frameDirty }

/-- refreshLedOutput(index) of src/unnamed/part_003: refresh using the
current intensity and alternate flag of the LED. -/
def refreshLed (e : EngineState) (index : Nat) : EngineState :=
  let led := e.leds.getD index ledDefault
  refreshLedW e index led.intensity led.useAlt

/-- setModeInternal of src/unnamed/part_003 restricted to its effect on one
LED record; lastTickMs is the engine field _lastTickMs at call time. -/
def setModeInternalLed (lastTickMs : Nat) (mode : Mode) (params : ModeParams)
    (led : LedState) : LedState :=
  { led with
    mode := mode
    params := sanitizeParams mode params
    phase := 0
    useAlt := false
    modeStartMs := lastTickMs
    nextUpdateMs := lastTickMs
    phaseEndMs := lastTickMs }

/-- setModeInternal of src/unnamed/part_003 (always returns Ok). -/
def setModeInternal (e : EngineState) (index : Nat) (mode : Mode)
    (params : ModeParams) : Status × EngineState :=
  let led := e.leds.getD index ledDefault
  (Ok, { e with leds := e.leds.set index (setModeInternalLed e.lastTickMs mode params led) })

/-- setColorInternal of src/unnamed/part_003. -/
def setColorInternal (e : EngineState) (index : Nat) (color : RgbColor)
    (secondary : Bool) : Status × EngineState :=
  let led := e.leds.getD index ledDefault
  let led := if secondary then { led with altColor := color } else { led with color := color }
  let e := { e with leds := e.leds.set index led }
  (Ok, refreshLed e index)

/-- The effect of applyPresetInternal of src/unnamed/part_003 on the LED
record, for a preset present in the catalog: copy the preset colors, reset
the mode with the mode defaults.  lastTickMs is the engine field
_lastTickMs at call time. -/
def applyPresetLed (lastTickMs preset : Nat) (d : PresetDef) (led : LedState) : LedState :=
  let led := { led with currentPreset := preset, color := d.primary,
                        altColor := d.secondary, useAlt := false }
  let led := setModeInternalLed lastTickMs d.mode (getModeDefaults d.mode) led
  if d.useSecondary then { led with altColor := d.secondary } else led

/-- applyPresetInternal of src/unnamed/part_003: look up the preset, copy
its colors, reset the mode with the mode defaults and refresh the output. -/
def applyPresetInternal (e : EngineState) (index preset : Nat) : Status × EngineState :=
  match findPreset preset with
  | none => (⟨Err.INVALID_CONFIG, (preset : Int), "Unknown preset"⟩, e)
  | some d =>
    let led := applyPresetLed e.lastTickMs preset d (e.leds.getD index ledDefault)
    let e := { e with leds := e.leds.set index led }
    (Ok, refreshLed e index)

/-- Simple-blink arm of the updateLed switch (BlinkSlow and BlinkFast in
src/unnamed/part_003): toggle phase between on and off, schedule the next
evaluation at the end of the phase (uint32 addition wraps). -/
def blinkStep (now : Nat) (led : LedState) : LedState :=
  let onMs := led.params.onMs
  let periodMs := led.params.periodMs
  let offMs := if onMs < periodMs then periodMs - onMs else 0
  let led :=
    if led.phase = 0 then
      { led with phase := 1, intensity := 255, useAlt := false,
                 phaseEndMs := (now + onMs) % 4294967296 }
    else
      { led with phase := 0, intensity := 0, useAlt := false,
                 phaseEndMs := (now + offMs) % 4294967296 }
  { led with nextUpdateMs := led.phaseEndMs }

/-- Table-driven arm of the updateLed switch (DoubleBlink, TripleBlink,
Beacon, Strobe, Heartbeat, Alternate): read the step at phase modulo table
length, advance the uint8 phase counter, schedule after the step duration. -/
def patternStep (table : List PatternStep) (now : Nat) (led : LedState) : LedState :=
  let step := table.getD (led.phase % table.length) ⟨0, 0, false⟩
  { led with intensity := step.intensity, useAlt := step.useAlt,
             phase := (led.phase + 1) % 256,
             nextUpdateMs := (now + step.durationMs) % 4294967296 }

/-- FadeIn arm of the updateLed switch. -/
def fadeInStep (cfg : Config) (now : Nat) (led : LedState) : LedState :=
  let elapsed := (now + 4294967296 - led.modeStartMs % 4294967296) % 4294967296
  if led.params.riseMs ≤ elapsed then
    { led with intensity := 255, useAlt := false, nextUpdateMs := kNever }
  else
    { led with intensity := lerpU8 0 255 (elapsed % 65536) led.params.riseMs,
               useAlt := false, nextUpdateMs := (now + cfg.smoothStepMs) % 4294967296 }

/-- FadeOut arm of the updateLed switch. -/
def fadeOutStep (cfg : Config) (now : Nat) (led : LedState) : LedState :=
  let elapsed := (now + 4294967296 - led.modeStartMs % 4294967296) % 4294967296
  if led.params.fallMs ≤ elapsed then
    { led with intensity := 0, useAlt := false, nextUpdateMs := kNever }
  else
    { led with intensity := lerpU8 255 0 (elapsed % 65536) led.params.fallMs,
               useAlt := false, nextUpdateMs := (now + cfg.smoothStepMs) % 4294967296 }

/-- PulseSoft, PulseSharp, Breathing and Throb arm of the updateLed switch:
triangular ramp over now modulo period, eased for the soft variants and
squared via scale8 for Breathing. -/
def pulseStep (cfg : Config) (now : Nat) (led : LedState) : LedState :=
  let period := if 0 < led.params.periodMs then led.params.periodMs else 1
  let phase := now % period
  let half := period / 2
  let raw :=
    if phase < half then lerpU8 led.params.minLevel led.params.maxLevel phase half
    else lerpU8 led.params.maxLevel led.params.minLevel (phase - half) half
  let shaped :=
    if led.mode = Mode.PulseSoft ∨ led.mode = Mode.Breathing ∨ led.mode = Mode.Throb then
      let eased := ease8InOut raw
      if led.mode = Mode.Breathing then scale8 eased eased else eased
    else raw
  { led with intensity := shaped, useAlt := false,
             nextUpdateMs := (now + cfg.smoothStepMs) % 4294967296 }

/-- FlickerCandle and Glitch arm of the updateLed switch: advance the
per-LED LFSR and derive intensity and a jittered next deadline from it. -/
def flickerStep (now : Nat) (led : LedState) : LedState :=
  let lfsr := (led.lfsr / 2) ^^^ (if led.lfsr % 2 = 1 then 46080 else 0)
  let rand8 := lfsr % 256
  let intensity :=
    if led.mode = Mode.FlickerCandle then (140 + rand8 % 100) % 256
    else if rand8 < 30 then 0 else 255
  let jitter := 30 + rand8 % 60
  { led with lfsr := lfsr, intensity := intensity, useAlt := false,
             nextUpdateMs := (now + jitter) % 4294967296 }

/-- The mode switch of updateLed in src/unnamed/part_003: the effect of one
due evaluation on the LED record. -/
def dispatchMode (cfg : Config) (now : Nat) (led : LedState) : LedState :=
  match led.mode with
  | Mode.Off => { led with intensity := 0, useAlt := false, nextUpdateMs := kNever }
  | Mode.Solid => { led with intensity := 255, useAlt := false, nextUpdateMs := kNever }
  | Mode.Dim => { led with intensity := kDimLevel, useAlt := false, nextUpdateMs := kNever }
  | Mode.BlinkSlow => blinkStep now led
  | Mode.BlinkFast => blinkStep now led
  | Mode.DoubleBlink => patternStep kPatternDoubleBlink now led
  | Mode.TripleBlink => patternStep kPatternTripleBlink now led
  | Mode.Beacon => patternStep kPatternBeacon now led
  | Mode.Strobe => patternStep kPatternStrobe now led
  | Mode.Heartbeat => patternStep kPatternHeartbeat now led
  | Mode.Alternate => patternStep kPatternPolice now led
  | Mode.FadeIn => fadeInStep cfg now led
  | Mode.FadeOut => fadeOutStep cfg now led
  | Mode.PulseSoft => pulseStep cfg now led
  | Mode.PulseSharp => pulseStep cfg now led
  | Mode.Breathing => pulseStep cfg now led
  | Mode.Throb => pulseStep cfg now led
  | Mode.FlickerCandle => flickerStep now led
  | Mode.Glitch => flickerStep now led

/-- The temporary-override part of updateLed in src/unnamed/part_003:
activation of a pending override (snapshot taken only when not already
active, then the override preset is applied and the absolute expiry is
computed) followed by the expiry check (restore the snapshot, reset phase
and timestamps to now, refresh the output).  Inside tick the engine field
_lastTickMs equals now_ms, which is how applyPresetInternal sees it. -/
def tempActivateLed (lastTickMs now : Nat) (led : LedState) : LedState :=
  if led.tempPending then
    let snap :=
      if led.tempActive = false then
        { led with resumeMode := led.mode, resumeParams := led.params,
                   resumeColor := led.color, resumeAltColor := led.altColor,
                   resumeBrightness := led.brightness, resumePreset := led.currentPreset }
      else led
    let applied :=
      match findPreset led.tempPreset with
      | none => snap
      | some d => applyPresetLed lastTickMs led.tempPreset d snap
    { applied with tempActive := true, tempPending := false,
                   tempUntilMs := (now + applied.tempDurationMs) % 4294967296 }
  else led

/-- The expiry block of updateLed on the LED record alone: when the
override is active and the deadline has been reached, restore every
snapshotted field, reset phase and the three timestamps to now and clear
the active flag. -/
def tempExpireLed (now : Nat) (led : LedState) : LedState :=
  if led.tempActive && timeReached now led.tempUntilMs then
    { led with tempActive := false, mode := led.resumeMode, params := led.resumeParams,
               color := led.resumeColor, altColor := led.resumeAltColor,
               brightness := led.resumeBrightness, currentPreset := led.resumePreset,
               phase := 0, useAlt := false,
               modeStartMs := now, nextUpdateMs := now, phaseEndMs := now }
  else led

/-- The effect of the temporary-override part of updateLed on the LED
record alone. -/
def updateLedTempLed (lastTickMs now : Nat) (led : LedState) : LedState :=
  tempExpireLed now (tempActivateLed lastTickMs now led)

/-- The temporary-override part of updateLed at engine level: the LED
record evolves by tempActivateLed and tempExpireLed; the output is
refreshed when a known override preset is applied (the refresh inside
applyPresetInternal) and when an override expires, exactly as in
src/unnamed/part_003. -/
def updateLedTemp (e : EngineState) (index now : Nat) : EngineState :=
  let led := e.leds.getD index ledDefault
  let ledA := tempActivateLed e.lastTickMs now led
  let e1 :=
    if led.tempPending then
      if findPreset led.tempPreset = none then { e with leds := e.leds.set index ledA }
      else refreshLed { e with leds := e.leds.set index ledA } index
    else e
  if ledA.tempActive && timeReached now ledA.tempUntilMs then
    refreshLed { e1 with leds := e1.leds.set index (tempExpireLed now ledA) } index
  else e1

/-- updateLed of src/unnamed/part_003: temporary-override transitions, then
the scheduled mode evaluation unless the deadline is the kNever sentinel or
not yet reached, then the output refresh with the new intensity. -/
def updateLed (e : EngineState) (index now : Nat) : EngineState :=
  let e := updateLedTemp e index now
  let led := e.leds.getD index ledDefault
  if led.nextUpdateMs = kNever then e
  else if timeReached now led.nextUpdateMs = false then e
  else
    let led := dispatchMode e.config now led
    refreshLedW { e with leds := e.leds.set index led } index led.intensity led.useAlt

/-- The effect of updateLed of src/unnamed/part_003 on the LED record
alone. -/
def updateLedFun (cfg : Config) (lastTickMs now : Nat) (led : LedState) : LedState :=
  let led := updateLedTempLed lastTickMs now led
  if led.nextUpdateMs = kNever then led
  else if timeReached now led.nextUpdateMs = false then led
  else dispatchMode cfg now led

/-- tick of src/unnamed/part_003 over the null backend (canShow true, show
succeeds): record the tick time, update every configured LED, then transmit
the frame when dirty. -/
def tick (e : EngineState) (now : Nat) : EngineState :=
  if e.initialized = false then e
  else
    let e := { e with lastTickMs := now }
    let e := (List.range e.config.ledCount).foldl (fun acc i => updateLed acc i now) e
    if e.frameDirty then { e with frameDirty := false } else e

/-- Engine teardown (end of src/unnamed/part_003; the null backend holds no
state). -/
def engineEnd (e : EngineState) : EngineState :=
  { e with initialized := false }

/-- begin of src/unnamed/part_003 over the null backend: validate dataPin,
ledCount, rmtChannel and smoothStepMs, then reset the tick clock, the LED
slots (with the per-index LFSR seed) and the frame, and mark the frame
dirty.  The null backend allocation and begin always succeed. -/
def begin (e : EngineState) (config : Config) : Status × EngineState :=
  if config.dataPin < 0 then
    setLast e ⟨Err.INVALID_CONFIG, 0, "dataPin must be >= 0"⟩
  else if config.ledCount = 0 ∨ kMaxLeds < config.ledCount then
    setLast e ⟨Err.INVALID_CONFIG, (config.ledCount : Int), "ledCount out of range"⟩
  else if 3 < config.rmtChannel then
    setLast e ⟨Err.INVALID_CONFIG, (config.rmtChannel : Int), "rmtChannel out of range"⟩
  else if config.smoothStepMs < kMinSmoothStepMs ∨ kMaxSmoothStepMs < config.smoothStepMs then
    setLast e ⟨Err.INVALID_CONFIG, (config.smoothStepMs : Int), "smoothStepMs out of range"⟩
  else
    let e := engineEnd e
    let e := { e with config := config, lastTickMs := 0, frameDirty := false,
                      leds := (List.range kMaxLeds).map
                        (fun i => { ledDefault with lfsr := 703710 ^^^ (i * 7919) }),
                      frame := List.replicate kMaxLeds kColorOff }
    let e := { e with initialized := true, frameDirty := true }
    setLast e Ok

/-- setMode of src/unnamed/part_003 (explicit parameters overload). -/
def setMode (e : EngineState) (index : Nat) (mode : Mode) (params : ModeParams) :
    Status × EngineState :=
  if e.initialized = false then
    setLast e ⟨Err.NOT_INITIALIZED, 0, "begin not called"⟩
  else if indexValid e index = false then
    setLast e ⟨Err.INVALID_CONFIG, (index : Int), "index out of range"⟩
  else if isValidMode mode = false then
    setLast e ⟨Err.INVALID_CONFIG, 0, "Unknown mode"⟩
  else
    let led := e.leds.getD index ledDefault
    let e := { e with leds := e.leds.set index { led with currentPreset := presetOff } }
    let r := setModeInternal e index mode params
    setLast r.2 r.1

/-- setColor of src/unnamed/part_003. -/
def setColor (e : EngineState) (index : Nat) (color : RgbColor) : Status × EngineState :=
  if e.initialized = false then
    setLast e ⟨Err.NOT_INITIALIZED, 0, "begin not called"⟩
  else if indexValid e index = false then
    setLast e ⟨Err.INVALID_CONFIG, (index : Int), "index out of range"⟩
  else
    let led := e.leds.getD index ledDefault
    let e := { e with leds := e.leds.set index { led with currentPreset := presetOff } }
    let r := setColorInternal e index color false
    setLast r.2 r.1

/-- setSecondaryColor of src/unnamed/part_003. -/
def setSecondaryColor (e : EngineState) (index : Nat) (color : RgbColor) :
    Status × EngineState :=
  if e.initialized = false then
    setLast e ⟨Err.NOT_INITIALIZED, 0, "begin not called"⟩
  else if indexValid e index = false then
    setLast e ⟨Err.INVALID_CONFIG, (index : Int), "index out of range"⟩
  else
    let led := e.leds.getD index ledDefault
    let e := { e with leds := e.leds.set index { led with currentPreset := presetOff } }
    let r := setColorInternal e index color true
    setLast r.2 r.1

/-- setPreset of src/unnamed/part_003: clears the temporary-override flags
before the preset lookup is attempted. -/
def setPreset (e : EngineState) (index preset : Nat) : Status × EngineState :=
  if e.initialized = false then
    setLast e ⟨Err.NOT_INITIALIZED, 0, "begin not called"⟩
  else if indexValid e index = false then
    setLast e ⟨Err.INVALID_CONFIG, (index : Int), "index out of range"⟩
  else
    let led := e.leds.getD index ledDefault
    let led := { led with tempActive := false, tempPending := false }
    let e := { e with leds := e.leds.set index led }
    let r := applyPresetInternal e index preset
    setLast r.2 r.1

/-- setDefaultPreset of src/unnamed/part_003: store the default and apply
it immediately only when the LED is idle (preset Off and mode Off). -/
def setDefaultPreset (e : EngineState) (index preset : Nat) : Status × EngineState :=
  if e.initialized = false then
    setLast e ⟨Err.NOT_INITIALIZED, 0, "begin not called"⟩
  else if indexValid e index = false then
    setLast e ⟨Err.INVALID_CONFIG, (index : Int), "index out of range"⟩
  else if findPreset preset = none then
    setLast e ⟨Err.INVALID_CONFIG, (preset : Int), "Unknown preset"⟩
  else
    let led := e.leds.getD index ledDefault
    let e := { e with leds := e.leds.set index { led with defaultPreset := preset } }
    if led.currentPreset = presetOff ∧ led.mode = Mode.Off then
      let r := applyPresetInternal e index preset
      setLast r.2 r.1
    else
      setLast e Ok

/-- setTemporaryPreset of src/unnamed/part_003: validate, then record the
target preset and duration and mark the override pending (activation
happens on the next scheduler evaluation of the LED). -/
def setTemporaryPreset (e : EngineState) (index preset durationMs : Nat) :
    Status × EngineState :=
  if e.initialized = false then
    setLast e ⟨Err.NOT_INITIALIZED, 0, "begin not called"⟩
  else if indexValid e index = false then
    setLast e ⟨Err.INVALID_CONFIG, (index : Int), "index out of range"⟩
  else if durationMs = 0 then
    setLast e ⟨Err.INVALID_CONFIG, 0, "durationMs must be > 0"⟩
  else if findPreset preset = none then
    setLast e ⟨Err.INVALID_CONFIG, (preset : Int), "Unknown preset"⟩
  else
    let led := e.leds.getD index ledDefault
    let led := { led with tempPreset := preset, tempDurationMs := durationMs,
                          tempPending := true }
    let e := { e with leds := e.leds.set index led }
    setLast e Ok

/-- setBrightness of src/unnamed/part_003. -/
def setBrightness (e : EngineState) (index level : Nat) : Status × EngineState :=
  if e.initialized = false then
    setLast e ⟨Err.NOT_INITIALIZED, 0, "begin not called"⟩
  else if indexValid e index = false then
    setLast e ⟨Err.INVALID_CONFIG, (index : Int), "index out of range"⟩
  else
    let led := e.leds.getD index ledDefault
    let e := { e with leds := e.leds.set index { led with brightness := level } }
    setLast (refreshLed e index) Ok

/-- setGlobalBrightness of src/unnamed/part_003. -/
def setGlobalBrightness (e : EngineState) (level : Nat) : Status × EngineState :=
  if e.initialized = false then
    setLast e ⟨Err.NOT_INITIALIZED, 0, "begin not called"⟩
  else
    let e := { e with config := { e.config with globalBrightness := level } }
    let e := (List.range e.config.ledCount).foldl (fun acc i => refreshLed acc i) e
    setLast e Ok

/-- One public engine operation (used to phrase reachability by sequences
of operations). -/
inductive Op where
  | opTick (now : Nat)
  | opSetMode (index : Nat) (mode : Mode) (params : ModeParams)
  | opSetColor (index : Nat) (color : RgbColor)
  | opSetSecondaryColor (index : Nat) (color : RgbColor)
  | opSetPreset (index preset : Nat)
  | opSetDefaultPreset (index preset : Nat)
  | opSetTemporaryPreset (index preset durationMs : Nat)
  | opSetBrightness (index level : Nat)
  | opSetGlobalBrightness (level : Nat)

/-- Apply one public operation to the engine state. -/
def applyOp (e : EngineState) : Op → EngineState
  | Op.opTick now => tick e now
  | Op.opSetMode index mode params => (setMode e index mode params).2
  | Op.opSetColor index color => (setColor e index color).2
  | Op.opSetSecondaryColor index color => (setSecondaryColor e index color).2
  | Op.opSetPreset index preset => (setPreset e index preset).2
  | Op.opSetDefaultPreset index preset => (setDefaultPreset e index preset).2
  | Op.opSetTemporaryPreset index preset durationMs =>
      (setTemporaryPreset e index preset durationMs).2
  | Op.opSetBrightness index level => (setBrightness e index level).2
  | Op.opSetGlobalBrightness level => (setGlobalBrightness e level).2

/-- Apply a sequence of public operations. -/
def runOps (e : EngineState) (ops : List Op) : EngineState :=
  ops.foldl applyOp e

/-- The parameter invariants the spec attributes to sanitized parameters,
relative to the mode they are stored with. -/
def ParamInv (mode : Mode) (p : ModeParams) : Prop :=
  2 ≤ p.periodMs ∧ p.onMs ≤ p.periodMs ∧ p.minLevel ≤ p.maxLevel ∧
  (mode = Mode.FadeIn → 1 ≤ p.riseMs) ∧ (mode = Mode.FadeOut → 1 ≤ p.fallMs)

instance (mode : Mode) (p : ModeParams) : Decidable (ParamInv mode p) := by
  unfold ParamInv; infer_instance

/-- A LED record carries sanitized parameters for its mode, both in the
live fields and in the temporary-override snapshot. -/
def LedInv (led : LedState) : Prop :=
  ParamInv led.mode led.params ∧ ParamInv led.resumeMode led.resumeParams

instance (led : LedState) : Decidable (LedInv led) := by
  unfold LedInv; infer_instance

/-- All LED slots of an engine state carry sanitized parameters. -/
def StateInv (e : EngineState) : Prop :=
  ∀ led ∈ e.leds, LedInv led

instance (e : EngineState) : Decidable (StateInv e) :=
  List.decidableBAll _ _

/-- The claimed per-channel output formula of the spec, written from the
spec words: the base color channel is pre-multiplied by the mode intensity
via scale, then scaled by the per-LED brightness, then by the global
brightness.  This definition follows the spec sentence, not the code; it is
compared against refreshLedW. -/
def specFinalChannel (base intensity perLed global : Nat) : Nat :=
  scale8 (scale8 (scale8 base intensity) perLed) global

/-- The fields of a LED record that no mode-dispatch arm modifies. -/
def coreFields (led : LedState) :
    Mode × ModeParams × RgbColor × RgbColor × Nat × Nat × Nat × Nat × Nat × Nat ×
    Bool × Bool × Mode × ModeParams × RgbColor × RgbColor × Nat × Nat :=
  (led.mode, led.params, led.color, led.altColor, led.brightness, led.currentPreset,
   led.defaultPreset, led.tempPreset, led.tempDurationMs, led.tempUntilMs,
   led.tempPending, led.tempActive, led.resumeMode, led.resumeParams,
   led.resumeColor, led.resumeAltColor, led.resumeBrightness, led.resumePreset)

theorem getD_set_self {α : Type} (l : List α) (i : Nat) (a d : α) (h : i < l.length) :
    (l.set i a).getD i d = a := by
  induction l generalizing i with
  | nil => simp at h
  | cons x xs ih =>
    cases i with
    | zero => rfl
    | succ n => simpa using ih n (by simpa using h)

theorem getD_set_ne {α : Type} (l : List α) (i j : Nat) (a d : α) (h : i ≠ j) :
    (l.set i a).getD j d = l.getD j d := by
  induction l generalizing i j with
  | nil => rfl
  | cons x xs ih =>
    cases i with
    | zero =>
      cases j with
      | zero => exact absurd rfl h
      | succ m => rfl
    | succ n =>
      cases j with
      | zero => rfl
      | succ m => simpa using ih n m (by omega)

theorem mem_of_mem_set {α : Type} (l : List α) (i : Nat) (a x : α)
    (h : x ∈ l.set i a) : x ∈ l ∨ x = a := by
  induction l generalizing i with
  | nil => simp at h
  | cons y ys ih =>
    cases i with
    | zero =>
      rcases List.mem_cons.mp h with h1 | h1
      · exact Or.inr h1
      · exact Or.inl (List.mem_cons_of_mem y h1)
    | succ n =>
      rcases List.mem_cons.mp h with h1 | h1
      · exact Or.inl (h1 ▸ List.mem_cons_self y ys)
      · rcases ih n h1 with h2 | h2
        · exact Or.inl (List.mem_cons_of_mem y h2)
        · exact Or.inr h2

theorem blinkStep_core (now : Nat) (led : LedState) :
    coreFields (blinkStep now led) = coreFields led := by
  simp only [blinkStep, coreFields]
  split <;> rfl

theorem patternStep_core (table : List PatternStep) (now : Nat) (led : LedState) :
    coreFields (patternStep table now led) = coreFields led := rfl

theorem fadeInStep_core (cfg : Config) (now : Nat) (led : LedState) :
    coreFields (fadeInStep cfg now led) = coreFields led := by
  simp only [fadeInStep, coreFields]
  split <;> rfl

theorem fadeOutStep_core (cfg : Config) (now : Nat) (led : LedState) :
    coreFields (fadeOutStep cfg now led) = coreFields led := by
  simp only [fadeOutStep, coreFields]
  split <;> rfl

theorem pulseStep_core (cfg : Config) (now : Nat) (led : LedState) :
    coreFields (pulseStep cfg now led) = coreFields led := rfl

theorem flickerStep_core (now : Nat) (led : LedState) :
    coreFields (flickerStep now led) = coreFields led := rfl

theorem dispatchMode_core (cfg : Config) (now : Nat) (led : LedState) :
    coreFields (dispatchMode cfg now led) = coreFields led := by
  rcases hm : led.mode <;>
    simp only [dispatchMode, hm, blinkStep_core, patternStep_core, fadeInStep_core,
      fadeOutStep_core, pulseStep_core, flickerStep_core] <;>
    simp [coreFields, hm]

theorem refreshLedW_keeps (e : EngineState) (index intensity : Nat) (useAlt : Bool) :
    (refreshLedW e index intensity useAlt).leds = e.leds ∧
    (refreshLedW e index intensity useAlt).config = e.config ∧
    (refreshLedW e index intensity useAlt).lastTickMs = e.lastTickMs ∧
    (refreshLedW e index intensity useAlt).initialized = e.initialized ∧
    (refreshLedW e index intensity useAlt).lastStatus = e.lastStatus :=
  ⟨rfl, rfl, rfl, rfl, rfl⟩

theorem refreshLedW_eta (e : EngineState) (index intensity : Nat) (useAlt : Bool) :
    refreshLedW e index intensity useAlt =
      { e with frame := (refreshLedW e index intensity useAlt).frame,
               frameDirty := (refreshLedW e index intensity useAlt).frameDirty } := rfl

theorem refreshLed_keeps (e : EngineState) (index : Nat) :
    (refreshLed e index).leds = e.leds ∧
    (refreshLed e index).config = e.config ∧
    (refreshLed e index).lastTickMs = e.lastTickMs ∧
    (refreshLed e index).initialized = e.initialized ∧
    (refreshLed e index).lastStatus = e.lastStatus := by
  simp only [refreshLed]
  exact refreshLedW_keeps _ _ _ _

theorem applyPresetInternal_keeps (e : EngineState) (index preset : Nat) :
    (applyPresetInternal e index preset).2.config = e.config ∧
    (applyPresetInternal e index preset).2.lastTickMs = e.lastTickMs ∧
    (applyPresetInternal e index preset).2.initialized = e.initialized ∧
    (applyPresetInternal e index preset).2.lastStatus = e.lastStatus ∧
    (applyPresetInternal e index preset).2.leds.length = e.leds.length := by
  rcases hfp : findPreset preset with _ | d <;>
    simp [applyPresetInternal, hfp, refreshLed, refreshLedW, List.length_set]

theorem applyPresetInternal_getD (e : EngineState) (index preset : Nat) (d : PresetDef)
    (h : index < e.leds.length) (hfp : findPreset preset = some d) :
    (applyPresetInternal e index preset).2.leds.getD index ledDefault =
      applyPresetLed e.lastTickMs preset d (e.leds.getD index ledDefault) := by
  simp only [applyPresetInternal, hfp, refreshLed, refreshLedW]
  exact getD_set_self _ _ _ _ h

theorem updateLedTemp_keeps (e : EngineState) (index now : Nat) :
    (updateLedTemp e index now).config = e.config ∧
    (updateLedTemp e index now).lastTickMs = e.lastTickMs ∧
    (updateLedTemp e index now).initialized = e.initialized ∧
    (updateLedTemp e index now).lastStatus = e.lastStatus ∧
    (updateLedTemp e index now).leds.length = e.leds.length := by
  simp only [updateLedTemp, refreshLed, refreshLedW]
  split <;> split <;> (try split) <;> simp [List.length_set]

theorem updateLedTemp_getD (e : EngineState) (index now : Nat) (h : index < e.leds.length) :
    (updateLedTemp e index now).leds.getD index ledDefault =
      updateLedTempLed e.lastTickMs now (e.leds.getD index ledDefault) := by
  simp only [updateLedTemp, updateLedTempLed]
  split
  next hx =>
    simp only [refreshLed, refreshLedW]
    apply getD_set_self
    split
    next hp => split <;> simp [refreshLed, refreshLedW, List.length_set, h]
    next hp => exact h
  next hx =>
    simp only [tempExpireLed]
    rw [if_neg hx]
    split
    next hp =>
      split
      next hf => exact getD_set_self _ _ _ _ h
      next hf =>
        simp only [refreshLed, refreshLedW]
        exact getD_set_self _ _ _ _ h
    next hp =>
      simp only [tempActivateLed]
      rw [if_neg hp]

theorem updateLed_keeps (e : EngineState) (index now : Nat) :
    (updateLed e index now).config = e.config ∧
    (updateLed e index now).lastTickMs = e.lastTickMs ∧
    (updateLed e index now).initialized = e.initialized ∧
    (updateLed e index now).lastStatus = e.lastStatus ∧
    (updateLed e index now).leds.length = e.leds.length := by
  have hK := updateLedTemp_keeps e index now
  simp only [updateLed, refreshLedW]
  split
  next => exact hK
  next =>
    split
    next => exact hK
    next =>
      exact ⟨hK.1, hK.2.1, hK.2.2.1, hK.2.2.2.1,
             (List.length_set _ _ _).trans hK.2.2.2.2⟩

theorem updateLed_getD (e : EngineState) (index now : Nat) (h : index < e.leds.length) :
    (updateLed e index now).leds.getD index ledDefault =
      updateLedFun e.config e.lastTickMs now (e.leds.getD index ledDefault) := by
  have hT := updateLedTemp_getD e index now h
  have hK := updateLedTemp_keeps e index now
  simp only [updateLed, updateLedFun]
  rw [hT, hK.1]
  split
  next => exact hT
  next =>
    split
    next => exact hT
    next =>
      simp only [refreshLedW]
      exact getD_set_self _ _ _ _ (by rw [hK.2.2.2.2]; exact h)

theorem updateLedTempLed_inactive (lastTickMs now : Nat) (led : LedState)
    (hPend : led.tempPending = false) (hAct : led.tempActive = false) :
    updateLedTempLed lastTickMs now led = led := by
  simp [updateLedTempLed, tempActivateLed, tempExpireLed, hPend, hAct]

theorem updateLedFun_core (cfg : Config) (lastTickMs now : Nat) (led : LedState) :
    coreFields (updateLedFun cfg lastTickMs now led) =
      coreFields (updateLedTempLed lastTickMs now led) := by
  simp only [updateLedFun]
  split
  next => rfl
  next =>
    split
    next => rfl
    next => exact dispatchMode_core _ _ _

theorem timeReached_add_false (now d : Nat) (hNow : now < 4294967296)
    (hd0 : 0 < d) (hdh : d < 2147483648) :
    timeReached now ((now + d) % 4294967296) = false := by
  simp only [timeReached, decide_eq_false_iff_not, not_lt]
  omega

theorem updateLed_frozen (e : EngineState) (index now : Nat)
    (hPend : (e.leds.getD index ledDefault).tempPending = false)
    (hAct : (e.leds.getD index ledDefault).tempActive = false)
    (hNever : (e.leds.getD index ledDefault).nextUpdateMs = kNever) :
    updateLed e index now = e := by
  have h1 : tempActivateLed e.lastTickMs now (e.leds.getD index ledDefault) =
      e.leds.getD index ledDefault := by
    simp only [tempActivateLed]
    rw [if_neg (by rw [hPend]; exact Bool.false_ne_true)]
  have h2 : updateLedTemp e index now = e := by
    simp only [updateLedTemp, h1]
    rw [if_neg (by rw [hAct, Bool.false_and]; exact Bool.false_ne_true),
        if_neg (by rw [hPend]; exact Bool.false_ne_true)]
  simp only [updateLed, h2]
  rw [if_pos hNever]

theorem applyPresetLed_mode (lastTickMs preset : Nat) (d : PresetDef) (led : LedState) :
    (applyPresetLed lastTickMs preset d led).mode = d.mode := by
  simp [applyPresetLed, setModeInternalLed, apply_ite]

theorem applyPresetLed_params (lastTickMs preset : Nat) (d : PresetDef) (led : LedState) :
    (applyPresetLed lastTickMs preset d led).params = sanitizeParams d.mode (getModeDefaults d.mode) := by
  simp [applyPresetLed, setModeInternalLed, apply_ite]

theorem applyPresetLed_color (lastTickMs preset : Nat) (d : PresetDef) (led : LedState) :
    (applyPresetLed lastTickMs preset d led).color = d.primary := by
  simp [applyPresetLed, setModeInternalLed, apply_ite]

theorem applyPresetLed_altColor (lastTickMs preset : Nat) (d : PresetDef) (led : LedState) :
    (applyPresetLed lastTickMs preset d led).altColor = d.secondary := by
  simp [applyPresetLed, setModeInternalLed, apply_ite]

theorem applyPresetLed_useAlt (lastTickMs preset : Nat) (d : PresetDef) (led : LedState) :
    (applyPresetLed lastTickMs preset d led).useAlt = false := by
  simp [applyPresetLed, setModeInternalLed, apply_ite]

theorem applyPresetLed_phase (lastTickMs preset : Nat) (d : PresetDef) (led : LedState) :
    (applyPresetLed lastTickMs preset d led).phase = 0 := by
  simp [applyPresetLed, setModeInternalLed, apply_ite]

theorem applyPresetLed_modeStartMs (lastTickMs preset : Nat) (d : PresetDef) (led : LedState) :
    (applyPresetLed lastTickMs preset d led).modeStartMs = lastTickMs := by
  simp [applyPresetLed, setModeInternalLed, apply_ite]

theorem applyPresetLed_nextUpdateMs (lastTickMs preset : Nat) (d : PresetDef) (led : LedState) :
    (applyPresetLed lastTickMs preset d led).nextUpdateMs = lastTickMs := by
  simp [applyPresetLed, setModeInternalLed, apply_ite]

theorem applyPresetLed_phaseEndMs (lastTickMs preset : Nat) (d : PresetDef) (led : LedState) :
    (applyPresetLed lastTickMs preset d led).phaseEndMs = lastTickMs := by
  simp [applyPresetLed, setModeInternalLed, apply_ite]

theorem applyPresetLed_currentPreset (lastTickMs preset : Nat) (d : PresetDef) (led : LedState) :
    (applyPresetLed lastTickMs preset d led).currentPreset = preset := by
  simp [applyPresetLed, setModeInternalLed, apply_ite]

theorem applyPresetLed_brightness (lastTickMs preset : Nat) (d : PresetDef) (led : LedState) :
    (applyPresetLed lastTickMs preset d led).brightness = led.brightness := by
  simp [applyPresetLed, setModeInternalLed, apply_ite]

theorem applyPresetLed_intensity (lastTickMs preset : Nat) (d : PresetDef) (led : LedState) :
    (applyPresetLed lastTickMs preset d led).intensity = led.intensity := by
  simp [applyPresetLed, setModeInternalLed, apply_ite]

theorem applyPresetLed_lfsr (lastTickMs preset : Nat) (d : PresetDef) (led : LedState) :
    (applyPresetLed lastTickMs preset d led).lfsr = led.lfsr := by
  simp [applyPresetLed, setModeInternalLed, apply_ite]

theorem applyPresetLed_defaultPreset (lastTickMs preset : Nat) (d : PresetDef) (led : LedState) :
    (applyPresetLed lastTickMs preset d led).defaultPreset = led.defaultPreset := by
  simp [applyPresetLed, setModeInternalLed, apply_ite]

theorem applyPresetLed_tempPreset (lastTickMs preset : Nat) (d : PresetDef) (led : LedState) :
    (applyPresetLed lastTickMs preset d led).tempPreset = led.tempPreset := by
  simp [applyPresetLed, setModeInternalLed, apply_ite]

theorem applyPresetLed_tempDurationMs (lastTickMs preset : Nat) (d : PresetDef) (led : LedState) :
    (applyPresetLed lastTickMs preset d led).tempDurationMs = led.tempDurationMs := by
  simp [applyPresetLed, setModeInternalLed, apply_ite]

theorem applyPresetLed_tempUntilMs (lastTickMs preset : Nat) (d : PresetDef) (led : LedState) :
    (applyPresetLed lastTickMs preset d led).tempUntilMs = led.tempUntilMs := by
  simp [applyPresetLed, setModeInternalLed, apply_ite]

theorem applyPresetLed_tempPending (lastTickMs preset : Nat) (d : PresetDef) (led : LedState) :
    (applyPresetLed lastTickMs preset d led).tempPending = led.tempPending := by
  simp [applyPresetLed, setModeInternalLed, apply_ite]

theorem applyPresetLed_tempActive (lastTickMs preset : Nat) (d : PresetDef) (led : LedState) :
    (applyPresetLed lastTickMs preset d led).tempActive = led.tempActive := by
  simp [applyPresetLed, setModeInternalLed, apply_ite]

theorem applyPresetLed_resumeMode (lastTickMs preset : Nat) (d : PresetDef) (led : LedState) :
    (applyPresetLed lastTickMs preset d led).resumeMode = led.resumeMode := by
  simp [applyPresetLed, setModeInternalLed, apply_ite]

theorem applyPresetLed_resumeParams (lastTickMs preset : Nat) (d : PresetDef) (led : LedState) :
    (applyPresetLed lastTickMs preset d led).resumeParams = led.resumeParams := by
  simp [applyPresetLed, setModeInternalLed, apply_ite]

theorem applyPresetLed_resumeColor (lastTickMs preset : Nat) (d : PresetDef) (led : LedState) :
    (applyPresetLed lastTickMs preset d led).resumeColor = led.resumeColor := by
  simp [applyPresetLed, setModeInternalLed, apply_ite]

theorem applyPresetLed_resumeAltColor (lastTickMs preset : Nat) (d : PresetDef) (led : LedState) :
    (applyPresetLed lastTickMs preset d led).resumeAltColor = led.resumeAltColor := by
  simp [applyPresetLed, setModeInternalLed, apply_ite]

theorem applyPresetLed_resumeBrightness (lastTickMs preset : Nat) (d : PresetDef) (led : LedState) :
    (applyPresetLed lastTickMs preset d led).resumeBrightness = led.resumeBrightness := by
  simp [applyPresetLed, setModeInternalLed, apply_ite]

theorem applyPresetLed_resumePreset (lastTickMs preset : Nat) (d : PresetDef) (led : LedState) :
    (applyPresetLed lastTickMs preset d led).resumePreset = led.resumePreset := by
  simp [applyPresetLed, setModeInternalLed, apply_ite]

theorem tempActivateLed_activate (lastTickMs now : Nat) (led : LedState) (d : PresetDef)
    (hp : led.tempPending = true) (ha : led.tempActive = false)
    (hfp : findPreset led.tempPreset = some d) :
    tempActivateLed lastTickMs now led =
      { applyPresetLed lastTickMs led.tempPreset d
          { led with resumeMode := led.mode, resumeParams := led.params,
                     resumeColor := led.color, resumeAltColor := led.altColor,
                     resumeBrightness := led.brightness,
                     resumePreset := led.currentPreset } with
        tempActive := true, tempPending := false,
        tempUntilMs := (now + (applyPresetLed lastTickMs led.tempPreset d
          { led with resumeMode := led.mode, resumeParams := led.params,
                     resumeColor := led.color, resumeAltColor := led.altColor,
                     resumeBrightness := led.brightness,
                     resumePreset := led.currentPreset }).tempDurationMs) % 4294967296 } := by
  simp only [tempActivateLed]
  rw [if_pos hp, hfp, if_pos ha]

theorem tempActivateLed_skip (lastTickMs now : Nat) (led : LedState)
    (hp : led.tempPending = false) :
    tempActivateLed lastTickMs now led = led := by
  simp only [tempActivateLed]
  rw [if_neg (by rw [hp]; exact Bool.false_ne_true)]

theorem tempExpireLed_expire (now : Nat) (led : LedState)
    (ha : led.tempActive = true) (hr : timeReached now led.tempUntilMs = true) :
    tempExpireLed now led =
      { led with tempActive := false, mode := led.resumeMode, params := led.resumeParams,
                 color := led.resumeColor, altColor := led.resumeAltColor,
                 brightness := led.resumeBrightness, currentPreset := led.resumePreset,
                 phase := 0, useAlt := false,
                 modeStartMs := now, nextUpdateMs := now, phaseEndMs := now } := by
  simp only [tempExpireLed]
  rw [if_pos (by rw [ha, hr]; rfl)]

theorem tempExpireLed_skip_inactive (now : Nat) (led : LedState)
    (ha : led.tempActive = false) :
    tempExpireLed now led = led := by
  simp only [tempExpireLed]
  rw [if_neg (by rw [ha, Bool.false_and]; exact Bool.false_ne_true)]

theorem tempExpireLed_skip_notdue (now : Nat) (led : LedState)
    (hr : timeReached now led.tempUntilMs = false) :
    tempExpireLed now led = led := by
  simp only [tempExpireLed]
  rw [if_neg (by rw [hr, Bool.and_false]; exact Bool.false_ne_true)]


theorem tempActivateLed_activate_active (lastTickMs now : Nat) (led : LedState) (d : PresetDef)
    (hp : led.tempPending = true) (ha : led.tempActive = true)
    (hfp : findPreset led.tempPreset = some d) :
    tempActivateLed lastTickMs now led =
      { applyPresetLed lastTickMs led.tempPreset d led with
        tempActive := true, tempPending := false,
        tempUntilMs := (now + (applyPresetLed lastTickMs led.tempPreset d led).tempDurationMs)
          % 4294967296 } := by
  simp only [tempActivateLed]
  rw [if_pos hp, hfp, if_neg (by rw [ha]; decide)]

theorem tempActivateLed_activate_none_active (lastTickMs now : Nat) (led : LedState)
    (hp : led.tempPending = true) (ha : led.tempActive = true)
    (hfp : findPreset led.tempPreset = none) :
    tempActivateLed lastTickMs now led =
      { led with tempActive := true, tempPending := false,
                 tempUntilMs := (now + led.tempDurationMs) % 4294967296 } := by
  simp only [tempActivateLed]
  rw [if_pos hp, hfp, if_neg (by rw [ha]; decide)]

theorem updateLedTempLed_resume_of_active (lastTickMs now : Nat) (led : LedState)
    (hAct : led.tempActive = true) :
    (updateLedTempLed lastTickMs now led).resumeMode = led.resumeMode ∧
    (updateLedTempLed lastTickMs now led).resumeParams = led.resumeParams ∧
    (updateLedTempLed lastTickMs now led).resumeColor = led.resumeColor ∧
    (updateLedTempLed lastTickMs now led).resumeAltColor = led.resumeAltColor ∧
    (updateLedTempLed lastTickMs now led).resumeBrightness = led.resumeBrightness ∧
    (updateLedTempLed lastTickMs now led).resumePreset = led.resumePreset := by
  simp only [updateLedTempLed]
  rcases hp : led.tempPending with _ | _
  · rw [tempActivateLed_skip _ _ _ hp]
    rcases hr : timeReached now led.tempUntilMs with _ | _
    · rw [tempExpireLed_skip_notdue _ _ hr]
      exact ⟨rfl, rfl, rfl, rfl, rfl, rfl⟩
    · rw [tempExpireLed_expire _ _ hAct hr]
      exact ⟨rfl, rfl, rfl, rfl, rfl, rfl⟩
  · rcases hfp : findPreset led.tempPreset with _ | d
    · rw [tempActivateLed_activate_none_active _ _ _ hp hAct hfp]
      rcases hr : timeReached now ((now + led.tempDurationMs) % 4294967296) with _ | _
      · rw [tempExpireLed_skip_notdue _ _ hr]
        exact ⟨rfl, rfl, rfl, rfl, rfl, rfl⟩
      · rw [tempExpireLed_expire _ _ rfl hr]
        exact ⟨rfl, rfl, rfl, rfl, rfl, rfl⟩
    · rw [tempActivateLed_activate_active _ _ _ _ hp hAct hfp]
      rcases hr : timeReached now
          ((now + (applyPresetLed lastTickMs led.tempPreset d led).tempDurationMs)
            % 4294967296) with _ | _
      · rw [tempExpireLed_skip_notdue _ _ hr]
        exact ⟨applyPresetLed_resumeMode _ _ _ _, applyPresetLed_resumeParams _ _ _ _,
               applyPresetLed_resumeColor _ _ _ _, applyPresetLed_resumeAltColor _ _ _ _,
               applyPresetLed_resumeBrightness _ _ _ _, applyPresetLed_resumePreset _ _ _ _⟩
      · rw [tempExpireLed_expire _ _ rfl hr]
        exact ⟨applyPresetLed_resumeMode _ _ _ _, applyPresetLed_resumeParams _ _ _ _,
               applyPresetLed_resumeColor _ _ _ _, applyPresetLed_resumeAltColor _ _ _ _,
               applyPresetLed_resumeBrightness _ _ _ _, applyPresetLed_resumePreset _ _ _ _⟩

/-- Demonstration state for the FadeOut claim: one LED in FadeOut mode with
the default (sanitized) parameters, mode started at time 0, evaluation due
immediately. -/
def fadeOutDemo : EngineState :=
  { initialized := true
    config := { dataPin := 1, ledCount := 1, colorOrder := 0, rmtChannel := 0,
                globalBrightness := 255, smoothStepMs := 20 }
    lastTickMs := 0
    frameDirty := false
    leds := [{ mode := Mode.FadeOut,
               params := sanitizeParams Mode.FadeOut (getModeDefaults Mode.FadeOut),
               brightness := 255, modeStartMs := 0, nextUpdateMs := 0 }]
    frame := [kColorOff]
    lastStatus := Ok }

/-- Demonstration state for the blink wraparound claim: one LED in BlinkFast
mode with the default parameters (onMs = 125), in the off-to-on transition
(phase 0), with the evaluation due at time 4294967295 - 125. -/
def blinkWrapDemo : EngineState :=
  { initialized := true
    config := { dataPin := 1, ledCount := 1, colorOrder := 0, rmtChannel := 0,
                globalBrightness := 255, smoothStepMs := 20 }
    lastTickMs := 4294967170
    frameDirty := false
    leds := [{ mode := Mode.BlinkFast,
               params := sanitizeParams Mode.BlinkFast (getModeDefaults Mode.BlinkFast),
               brightness := 255, modeStartMs := 4294967170,
               nextUpdateMs := 4294967170, phaseEndMs := 4294967170 }]
    frame := [kColorOff]
    lastStatus := Ok }

/-- C6: for every pair of 8-bit inputs, the brightness scaling primitive
satisfies scale8 v 255 = v and scale8 v 0 = 0, and its 16-bit intermediate
v * s + 127 never overflows (it is below 65536). -/
theorem c6_scale8_identity_zero_overflow_free :
    ∀ v s : Fin 256, scale8 v.val 255 = v.val ∧ scale8 v.val 0 = 0 ∧
      v.val * s.val + 127 < 65536 := by
  intro v s
  refine ⟨?_, ?_, ?_⟩
  · have h : (v.val * 255 + 127) / 255 = v.val := by
      rw [Nat.mul_comm, Nat.mul_add_div (by norm_num)]
      norm_num
    simp [scale8, h, Nat.mod_eq_of_lt v.isLt]
  · simp [scale8]
  · have h1 : v.val * s.val ≤ 255 * 255 :=
      Nat.mul_le_mul (Nat.le_of_lt_succ v.isLt) (Nat.le_of_lt_succ s.isLt)
    omega

/-- C4: begin does not validate the channel-order value or an upper bound
on the data-line identifier.  With colorOrder = 99 (outside the ColorOrder
enumeration GRB = 0, RGB = 1) or with dataPin = 300, begin returns OK and
leaves the engine initialized, contradicting the claim, the regression test
test_begin_rejects_invalid_color_order_and_pin in test/native and the 1.0.1
changelog entry about defensive config validation. -/
theorem c4_begin_accepts_bad_colorOrder_and_pin :
    (begin {} { dataPin := 1, ledCount := 1, colorOrder := 99, rmtChannel := 0,
                globalBrightness := 255, smoothStepMs := 20 }).1.code = Err.OK ∧
    (begin {} { dataPin := 1, ledCount := 1, colorOrder := 99, rmtChannel := 0,
                globalBrightness := 255, smoothStepMs := 20 }).2.initialized = true ∧
    (begin {} { dataPin := 300, ledCount := 1, colorOrder := 0, rmtChannel := 0,
                globalBrightness := 255, smoothStepMs := 20 }).1.code = Err.OK ∧
    (begin {} { dataPin := 300, ledCount := 1, colorOrder := 0, rmtChannel := 0,
                globalBrightness := 255, smoothStepMs := 20 }).2.initialized = true := by
  decide

/-- C2: the FadeOut intensity is not strictly decreasing.  With the default
sanitized fall duration 1000 and mode start 0, the code yields intensity
255 at elapsed 0, then 64 at elapsed 1 and 129 at elapsed 2 (an increase),
and 24 at elapsed 20 where the regression test of test/native expects a
value above 200; the descending interpolation through the 16-bit cast in
lerpU8 corrupts the ramp, as recorded fixed in the 1.0.1 changelog.  The
value is exactly 0 from elapsed 1000 on. -/
theorem c2_fadeOut_intensity_corrupted :
    ((updateLed fadeOutDemo 0 0).leds.getD 0 ledDefault).intensity = 255 ∧
    ((updateLed fadeOutDemo 0 1).leds.getD 0 ledDefault).intensity = 64 ∧
    ((updateLed fadeOutDemo 0 2).leds.getD 0 ledDefault).intensity = 129 ∧
    ¬(((updateLed fadeOutDemo 0 2).leds.getD 0 ledDefault).intensity <
      ((updateLed fadeOutDemo 0 1).leds.getD 0 ledDefault).intensity) ∧
    ((updateLed fadeOutDemo 0 20).leds.getD 0 ledDefault).intensity = 24 ∧
    ((updateLed fadeOutDemo 0 1000).leds.getD 0 ledDefault).intensity = 0 ∧
    ((updateLed fadeOutDemo 0 1000).leds.getD 0 ledDefault).nextUpdateMs = kNever := by
  decide

/-- C3: a repeating blink mode computes a next-update deadline that
collides with the kNever sentinel.  Evaluating the on-phase of BlinkFast
(onMs = 125) at time 4294967295 - 125 yields nextUpdateMs = 4294967295 =
kNever, and every later evaluation returns the state unchanged: the LED
freezes at intensity 255 instead of blinking on across the wraparound,
contradicting the claim, the regression test
test_blink_fast_wraparound_does_not_freeze and the 1.0.1 changelog entry
about the deadline sentinel collision. -/
theorem c3_blink_deadline_collides_with_kNever :
    ((updateLed blinkWrapDemo 0 4294967170).leds.getD 0 ledDefault).intensity = 255 ∧
    ((updateLed blinkWrapDemo 0 4294967170).leds.getD 0 ledDefault).nextUpdateMs = kNever ∧
    updateLed { updateLed blinkWrapDemo 0 4294967170 with lastTickMs := 100 } 0 100 =
      { updateLed blinkWrapDemo 0 4294967170 with lastTickMs := 100 } ∧
    ((updateLed { updateLed blinkWrapDemo 0 4294967170 with lastTickMs := 100 } 0 100).leds.getD
      0 ledDefault).intensity = 255 := by
  decide

/-- The per-channel output formula the code actually computes: the mode
intensity and the two brightness factors are combined into one scale factor
by scale8 and applied once to the base channel. -/
def codeFinalChannel (base intensity perLed global : Nat) : Nat :=
  scale8 base (scale8 (scale8 intensity perLed) global)

/-- Demonstration state for the output pipeline: color 1 on each channel,
intensity 128, per-LED brightness 128, global brightness 128, stored frame
value 5 so a write occurs. -/
def refreshDemo : EngineState :=
  { initialized := true
    config := { dataPin := 1, ledCount := 1, colorOrder := 0, rmtChannel := 0,
                globalBrightness := 128, smoothStepMs := 20 }
    lastTickMs := 0
    frameDirty := false
    leds := [{ color := ⟨1, 1, 1⟩, intensity := 128, brightness := 128 }]
    frame := [⟨5, 5, 5⟩]
    lastStatus := Ok }

/-- Demonstration state where the stored frame value already equals the
computed output color, so a refresh changes nothing. -/
def refreshEqDemo : EngineState :=
  { initialized := true
    config := { dataPin := 1, ledCount := 1, colorOrder := 0, rmtChannel := 0,
                globalBrightness := 255, smoothStepMs := 20 }
    lastTickMs := 0
    frameDirty := false
    leds := [{ color := ⟨10, 20, 30⟩, intensity := 255, brightness := 255 }]
    frame := [⟨10, 20, 30⟩]
    lastStatus := Ok }

/-- C8 counterexample: the claimed composition order — the base channel
pre-multiplied by the intensity via scale, then scaled by the per-LED
brightness, then by the global brightness — disagrees with the code.  At
base channel 1, intensity 128, per-LED brightness 128 and global
brightness 128, the code writes 0 into the frame while the claimed formula
yields 1. -/
theorem c8_spec_formula_counterexample :
    ((refreshLed refreshDemo 0).frame.getD 0 kColorOff).r = 0 ∧
    specFinalChannel 1 128 128 128 = 1 ∧
    ((refreshLed refreshDemo 0).frame.getD 0 kColorOff).r ≠
      specFinalChannel 1 128 128 128 := by
  decide

/-- The full output color of the code formula for one LED under a given
configuration. -/
def codeFinalColor (cfg : Config) (led : LedState) : RgbColor :=
  ⟨codeFinalChannel (if led.useAlt then led.altColor else led.color).r
      led.intensity led.brightness cfg.globalBrightness,
   codeFinalChannel (if led.useAlt then led.altColor else led.color).g
      led.intensity led.brightness cfg.globalBrightness,
   codeFinalChannel (if led.useAlt then led.altColor else led.color).b
      led.intensity led.brightness cfg.globalBrightness⟩

/-- C8 (amended): refreshLedOutput computes each channel as scale8 applied
once to the base channel with the combined factor
scale8 (scale8 intensity perLedBrightness) globalBrightness, where the base
color is the secondary color iff the alternate flag is set; the frame slot
and the dirty flag are updated iff the computed color differs from the
stored one, and both are left unchanged when it is equal. -/
theorem c8_refresh_output_amended (e : EngineState) (index : Nat) :
    (refreshLed e index).leds = e.leds ∧
    (e.frame.getD index kColorOff =
        codeFinalColor e.config (e.leds.getD index ledDefault) →
      refreshLed e index = e) ∧
    (e.frame.getD index kColorOff ≠
        codeFinalColor e.config (e.leds.getD index ledDefault) →
      (refreshLed e index).frame =
        e.frame.set index (codeFinalColor e.config (e.leds.getD index ledDefault)) ∧
      (refreshLed e index).frameDirty = true) := by
  refine ⟨rfl, fun heq => ?_, fun hne => ?_⟩
  · simp only [codeFinalColor, codeFinalChannel] at heq
    simp only [refreshLed, refreshLedW]
    rw [if_neg (not_not_intro heq), if_neg (not_not_intro heq)]
  · simp only [codeFinalColor, codeFinalChannel] at hne
    simp only [refreshLed, refreshLedW, codeFinalColor, codeFinalChannel]
    rw [if_pos hne, if_pos hne]
    exact ⟨rfl, rfl⟩

/-- C8 witness: on a frame already holding the computed color the refresh
leaves the state untouched; on refreshDemo the computed color 0,0,0 is
written and the dirty flag set. -/
theorem c8_refresh_output_amended_witness :
    refreshLed refreshEqDemo 0 = refreshEqDemo ∧
    (refreshLed refreshDemo 0).frame = refreshDemo.frame.set 0 ⟨0, 0, 0⟩ ∧
    (refreshLed refreshDemo 0).frameDirty = true :=
  ⟨(c8_refresh_output_amended refreshEqDemo 0).2.1 (by decide),
   ((c8_refresh_output_amended refreshDemo 0).2.2 (by decide)).1,
   ((c8_refresh_output_amended refreshDemo 0).2.2 (by decide)).2⟩

/-- Demonstration state with an active and re-pending temporary override,
used for the setPreset error path. -/
def unknownPresetDemo : EngineState :=
  { initialized := true
    config := { dataPin := 1, ledCount := 1, colorOrder := 0, rmtChannel := 0,
                globalBrightness := 255, smoothStepMs := 20 }
    lastTickMs := 50
    frameDirty := false
    leds := [{ mode := Mode.Solid, color := kColorGreen, brightness := 255,
               currentPreset := presetReady, tempPreset := presetError,
               tempDurationMs := 200, tempUntilMs := 250,
               tempPending := true, tempActive := true }]
    frame := [kColorOff]
    lastStatus := Ok }

/-- C10: setPreset with a preset value outside the catalog returns a
configuration-invalid error, yet has already cleared the temporary-override
pending and active flags of the LED; everything else is unchanged, so the
error path is not state-neutral. -/
theorem c10_setPreset_unknown_clears_override_flags (e : EngineState) (index preset : Nat)
    (hInit : e.initialized = true) (hIdx : index < e.config.ledCount)
    (hLen : index < e.leds.length) (hfp : findPreset preset = none) :
    (setPreset e index preset).1.code = Err.INVALID_CONFIG ∧
    (setPreset e index preset).2.leds =
      e.leds.set index
        { e.leds.getD index ledDefault with tempActive := false, tempPending := false } ∧
    (setPreset e index preset).2.leds.getD index ledDefault =
      { e.leds.getD index ledDefault with tempActive := false, tempPending := false } ∧
    (setPreset e index preset).2.frame = e.frame ∧
    (setPreset e index preset).2.frameDirty = e.frameDirty ∧
    (setPreset e index preset).2.config = e.config ∧
    (setPreset e index preset).2.initialized = e.initialized ∧
    (setPreset e index preset).2.lastTickMs = e.lastTickMs := by
  have hiv : indexValid e index = true := by simp [indexValid, hIdx]
  simp only [setPreset, applyPresetInternal, hfp, setLast]
  rw [if_neg (by rw [hInit]; decide), if_neg (by rw [hiv]; decide)]
  exact ⟨rfl, rfl, getD_set_self _ _ _ _ hLen, rfl, rfl, rfl, rfl, rfl⟩

/-- C10 witness: the concrete error path on unknownPresetDemo with the
unknown preset value 99. -/
theorem c10_setPreset_unknown_witness :
    (setPreset unknownPresetDemo 0 99).1.code = Err.INVALID_CONFIG ∧
    (setPreset unknownPresetDemo 0 99).2.leds.getD 0 ledDefault =
      { unknownPresetDemo.leds.getD 0 ledDefault with
        tempActive := false, tempPending := false } ∧
    (setPreset unknownPresetDemo 0 99).2.frame = unknownPresetDemo.frame :=
  ⟨(c10_setPreset_unknown_clears_override_flags unknownPresetDemo 0 99
      (by decide) (by decide) (by decide) (by decide)).1,
   (c10_setPreset_unknown_clears_override_flags unknownPresetDemo 0 99
      (by decide) (by decide) (by decide) (by decide)).2.2.1,
   (c10_setPreset_unknown_clears_override_flags unknownPresetDemo 0 99
      (by decide) (by decide) (by decide) (by decide)).2.2.2.1⟩

/-- Demonstration state with an idle LED (mode Off, preset Off) in slot 0,
for the default-preset auto-apply branch. -/
def idleDemo : EngineState :=
  { initialized := true
    config := { dataPin := 1, ledCount := 1, colorOrder := 0, rmtChannel := 0,
                globalBrightness := 255, smoothStepMs := 20 }
    lastTickMs := 40
    frameDirty := false
    leds := [{ brightness := 255 }]
    frame := [kColorOff]
    lastStatus := Ok }

/-- C9: setDefaultPreset stores the preset as the default of the LED and
returns OK; it applies the preset immediately (resetting mode, colors,
phase and the three timestamps to the last tick time, leaving the intensity
as it was) iff the LED is idle, that is its current preset is Off and its
mode is Off; otherwise only the stored default changes. -/
theorem c9_setDefaultPreset_applies_iff_idle (e : EngineState) (index preset : Nat)
    (d : PresetDef)
    (hInit : e.initialized = true) (hIdx : index < e.config.ledCount)
    (hLen : index < e.leds.length) (hfp : findPreset preset = some d) :
    (setDefaultPreset e index preset).1.code = Err.OK ∧
    ((setDefaultPreset e index preset).2.leds.getD index ledDefault).defaultPreset = preset ∧
    ((e.leds.getD index ledDefault).currentPreset = presetOff ∧
        (e.leds.getD index ledDefault).mode = Mode.Off →
      ((setDefaultPreset e index preset).2.leds.getD index ledDefault).mode = d.mode ∧
      ((setDefaultPreset e index preset).2.leds.getD index ledDefault).color = d.primary ∧
      ((setDefaultPreset e index preset).2.leds.getD index ledDefault).altColor =
        d.secondary ∧
      ((setDefaultPreset e index preset).2.leds.getD index ledDefault).currentPreset =
        preset ∧
      ((setDefaultPreset e index preset).2.leds.getD index ledDefault).phase = 0 ∧
      ((setDefaultPreset e index preset).2.leds.getD index ledDefault).modeStartMs =
        e.lastTickMs ∧
      ((setDefaultPreset e index preset).2.leds.getD index ledDefault).nextUpdateMs =
        e.lastTickMs ∧
      ((setDefaultPreset e index preset).2.leds.getD index ledDefault).phaseEndMs =
        e.lastTickMs ∧
      ((setDefaultPreset e index preset).2.leds.getD index ledDefault).intensity =
        (e.leds.getD index ledDefault).intensity) ∧
    (¬((e.leds.getD index ledDefault).currentPreset = presetOff ∧
        (e.leds.getD index ledDefault).mode = Mode.Off) →
      (setDefaultPreset e index preset).2.leds.getD index ledDefault =
        { e.leds.getD index ledDefault with defaultPreset := preset } ∧
      (setDefaultPreset e index preset).2.frame = e.frame ∧
      (setDefaultPreset e index preset).2.frameDirty = e.frameDirty) := by
  have hiv : indexValid e index = true := by simp [indexValid, hIdx]
  have hnn : ¬(findPreset preset = none) := by simp [hfp]
  simp only [setDefaultPreset]
  rw [if_neg (by rw [hInit]; decide), if_neg (by rw [hiv]; decide), if_neg hnn]
  split
  next hcond =>
    have hlen1 : index < (e.leds.set index { e.leds.getD index ledDefault with defaultPreset := preset }).length := by
      simpa [List.length_set] using hLen
    have hg := applyPresetInternal_getD { e with leds := e.leds.set index { e.leds.getD index ledDefault with defaultPreset := preset } } index preset d hlen1 hfp
    rw [getD_set_self _ _ _ _ hLen] at hg
    simp only [setLast]
    rw [hg]
    refine ⟨?_, applyPresetLed_defaultPreset _ _ _ _,
      fun _ => ⟨applyPresetLed_mode _ _ _ _, applyPresetLed_color _ _ _ _,
        applyPresetLed_altColor _ _ _ _, applyPresetLed_currentPreset _ _ _ _,
        applyPresetLed_phase _ _ _ _, applyPresetLed_modeStartMs _ _ _ _,
        applyPresetLed_nextUpdateMs _ _ _ _, applyPresetLed_phaseEndMs _ _ _ _,
        applyPresetLed_intensity _ _ _ _⟩,
      fun hc => absurd hcond hc⟩
    simp [applyPresetInternal, hfp, Ok]
  next hcond =>
    simp only [setLast]
    rw [getD_set_self _ _ _ _ hLen]
    exact ⟨rfl, rfl, fun hc => absurd hc hcond, fun _ => ⟨rfl, trivial, trivial⟩⟩

/-- C9 witness: on the idle LED of idleDemo the default preset Ready is
applied immediately (Solid green, timestamps reset to the last tick time
40); on the busy LED of unknownPresetDemo only the stored default changes
for the known preset Busy. -/
theorem c9_setDefaultPreset_witness :
    ((setDefaultPreset idleDemo 0 presetReady).2.leds.getD 0 ledDefault).mode =
      Mode.Solid ∧
    ((setDefaultPreset idleDemo 0 presetReady).2.leds.getD 0 ledDefault).color =
      kColorGreen ∧
    ((setDefaultPreset idleDemo 0 presetReady).2.leds.getD 0 ledDefault).modeStartMs = 40 ∧
    ((setDefaultPreset idleDemo 0 presetReady).2.leds.getD 0 ledDefault).defaultPreset =
      presetReady ∧
    (setDefaultPreset unknownPresetDemo 0 presetBusy).2.leds.getD 0 ledDefault =
      { unknownPresetDemo.leds.getD 0 ledDefault with defaultPreset := presetBusy } := by
  have h1 := c9_setDefaultPreset_applies_iff_idle idleDemo 0 presetReady
    ⟨presetReady, Mode.Solid, kColorGreen, kColorOff, false⟩
    (by decide) (by decide) (by decide) (by decide)
  have h2 := c9_setDefaultPreset_applies_iff_idle unknownPresetDemo 0 presetBusy
    ⟨presetBusy, Mode.PulseSoft, kColorOrange, kColorOff, false⟩
    (by decide) (by decide) (by decide) (by decide)
  exact ⟨(h1.2.2.1 (by decide)).1, (h1.2.2.1 (by decide)).2.1,
    (h1.2.2.1 (by decide)).2.2.2.2.2.1, h1.2.1, (h2.2.2.2 (by decide)).1⟩

theorem lerpU8_up_eq (p span : Nat) (hp : p < span) (hs : span ≤ 65535) :
    lerpU8 0 255 p span = 255 * p / span := by
  have hs0 : span ≠ 0 := by omega
  have hlt : 255 * p / span < 255 := by
    rw [Nat.div_lt_iff_lt_mul (by omega)]
    omega
  simp only [lerpU8]
  rw [if_neg hs0]
  norm_num
  generalize 255 * p / span = t at hlt ⊢
  omega

theorem updateLedFun_fadeIn_value (cfg : Config) (lastTickMs now : Nat) (led : LedState)
    (hMode : led.mode = Mode.FadeIn) (hPend : led.tempPending = false)
    (hAct : led.tempActive = false) (hNever : led.nextUpdateMs ≠ kNever)
    (hDue : timeReached now led.nextUpdateMs = true) :
    updateLedFun cfg lastTickMs now led = fadeInStep cfg now led := by
  have hTL := updateLedTempLed_inactive lastTickMs now led hPend hAct
  simp only [updateLedFun, hTL]
  rw [if_neg hNever, if_neg (by rw [hDue]; decide)]
  simp [dispatchMode, hMode]

theorem fadeInStep_run (cfg : Config) (now : Nat) (led : LedState)
    (hE : (now + 4294967296 - led.modeStartMs % 4294967296) % 4294967296 <
      led.params.riseMs)
    (hR : led.params.riseMs ≤ 65535) :
    (fadeInStep cfg now led).intensity =
      255 * ((now + 4294967296 - led.modeStartMs % 4294967296) % 4294967296) /
        led.params.riseMs := by
  simp only [fadeInStep]
  rw [if_neg (by omega)]
  have hm : (now + 4294967296 - led.modeStartMs % 4294967296) % 4294967296 % 65536 =
      (now + 4294967296 - led.modeStartMs % 4294967296) % 4294967296 :=
    Nat.mod_eq_of_lt (by omega)
  simp only [hm]
  exact lerpU8_up_eq _ _ hE hR

theorem fadeInStep_done (cfg : Config) (now : Nat) (led : LedState)
    (hE : led.params.riseMs ≤
      (now + 4294967296 - led.modeStartMs % 4294967296) % 4294967296) :
    (fadeInStep cfg now led).intensity = 255 ∧
    (fadeInStep cfg now led).nextUpdateMs = kNever := by
  simp only [fadeInStep]
  rw [if_pos hE]
  exact ⟨rfl, rfl⟩

theorem fadeInStep_tempFlags (cfg : Config) (now : Nat) (led : LedState) :
    (fadeInStep cfg now led).tempPending = led.tempPending ∧
    (fadeInStep cfg now led).tempActive = led.tempActive := by
  simp only [fadeInStep]
  split <;> exact ⟨rfl, rfl⟩

/-- C5: for a LED in FadeIn mode with sanitized rise duration (a uint16
value) and no temporary override, the intensity produced by a due scheduler
evaluation is non-decreasing in the elapsed time while elapsed is below the
rise duration; once elapsed reaches the rise duration the intensity is
exactly 255 and the next-update deadline is the kNever sentinel, and any
further evaluation leaves the engine state completely unchanged (idempotent
one-shot). -/
theorem c5_fadeIn_monotone_then_latched (e : EngineState) (index now1 now2 now3 now4 : Nat)
    (hLen : index < e.leds.length)
    (hMode : (e.leds.getD index ledDefault).mode = Mode.FadeIn)
    (hPend : (e.leds.getD index ledDefault).tempPending = false)
    (hAct : (e.leds.getD index ledDefault).tempActive = false)
    (hNever : (e.leds.getD index ledDefault).nextUpdateMs ≠ kNever)
    (hDue1 : timeReached now1 (e.leds.getD index ledDefault).nextUpdateMs = true)
    (hDue2 : timeReached now2 (e.leds.getD index ledDefault).nextUpdateMs = true)
    (hDue3 : timeReached now3 (e.leds.getD index ledDefault).nextUpdateMs = true)
    (hR : (e.leds.getD index ledDefault).params.riseMs ≤ 65535)
    (hE12 : (now1 + 4294967296 - (e.leds.getD index ledDefault).modeStartMs % 4294967296)
        % 4294967296 ≤
      (now2 + 4294967296 - (e.leds.getD index ledDefault).modeStartMs % 4294967296)
        % 4294967296)
    (hE2 : (now2 + 4294967296 - (e.leds.getD index ledDefault).modeStartMs % 4294967296)
        % 4294967296 < (e.leds.getD index ledDefault).params.riseMs)
    (hE3 : (e.leds.getD index ledDefault).params.riseMs ≤
      (now3 + 4294967296 - (e.leds.getD index ledDefault).modeStartMs % 4294967296)
        % 4294967296) :
    ((updateLed e index now1).leds.getD index ledDefault).intensity ≤
      ((updateLed e index now2).leds.getD index ledDefault).intensity ∧
    ((updateLed e index now3).leds.getD index ledDefault).intensity = 255 ∧
    ((updateLed e index now3).leds.getD index ledDefault).nextUpdateMs = kNever ∧
    updateLed { updateLed e index now3 with lastTickMs := now4 } index now4 =
      { updateLed e index now3 with lastTickMs := now4 } := by
  have hg1 := updateLed_getD e index now1 hLen
  have hg2 := updateLed_getD e index now2 hLen
  have hg3 := updateLed_getD e index now3 hLen
  have hv1 := updateLedFun_fadeIn_value e.config e.lastTickMs now1 _ hMode hPend hAct hNever hDue1
  have hv2 := updateLedFun_fadeIn_value e.config e.lastTickMs now2 _ hMode hPend hAct hNever hDue2
  have hv3 := updateLedFun_fadeIn_value e.config e.lastTickMs now3 _ hMode hPend hAct hNever hDue3
  rw [hv1] at hg1
  rw [hv2] at hg2
  rw [hv3] at hg3
  have hE1 : (now1 + 4294967296 - (e.leds.getD index ledDefault).modeStartMs % 4294967296)
      % 4294967296 < (e.leds.getD index ledDefault).params.riseMs := by omega
  have hrun1 := fadeInStep_run e.config now1 (e.leds.getD index ledDefault) hE1 hR
  have hrun2 := fadeInStep_run e.config now2 (e.leds.getD index ledDefault) hE2 hR
  have hdone := fadeInStep_done e.config now3 (e.leds.getD index ledDefault) hE3
  refine ⟨?_, ?_, ?_, ?_⟩
  · rw [hg1, hg2, hrun1, hrun2]
    exact Nat.div_le_div_right (Nat.mul_le_mul (le_refl 255) hE12)
  · rw [hg3]; exact hdone.1
  · rw [hg3]; exact hdone.2
  · apply updateLed_frozen
    · show ((updateLed e index now3).leds.getD index ledDefault).tempPending = false
      rw [hg3, (fadeInStep_tempFlags _ _ _).1]
      exact hPend
    · show ((updateLed e index now3).leds.getD index ledDefault).tempActive = false
      rw [hg3, (fadeInStep_tempFlags _ _ _).2]
      exact hAct
    · show ((updateLed e index now3).leds.getD index ledDefault).nextUpdateMs = kNever
      rw [hg3]; exact hdone.2

/-- Demonstration state for the FadeIn claim: one LED in FadeIn mode with
the default sanitized parameters (riseMs = 1000), mode started at 0,
evaluation due immediately. -/
def fadeInDemo : EngineState :=
  { initialized := true
    config := { dataPin := 1, ledCount := 1, colorOrder := 0, rmtChannel := 0,
                globalBrightness := 255, smoothStepMs := 20 }
    lastTickMs := 0
    frameDirty := false
    leds := [{ mode := Mode.FadeIn,
               params := sanitizeParams Mode.FadeIn (getModeDefaults Mode.FadeIn),
               brightness := 255, modeStartMs := 0, nextUpdateMs := 0 }]
    frame := [kColorOff]
    lastStatus := Ok }

/-- C5 witness: the FadeIn LED of fadeInDemo at elapsed 100 and 500 has
non-decreasing intensity, is exactly 255 with a kNever deadline at elapsed
1000, and a further tick at 1500 leaves the state unchanged. -/
theorem c5_fadeIn_witness :
    ((updateLed fadeInDemo 0 100).leds.getD 0 ledDefault).intensity ≤
      ((updateLed fadeInDemo 0 500).leds.getD 0 ledDefault).intensity ∧
    ((updateLed fadeInDemo 0 1000).leds.getD 0 ledDefault).intensity = 255 ∧
    ((updateLed fadeInDemo 0 1000).leds.getD 0 ledDefault).nextUpdateMs = kNever ∧
    updateLed { updateLed fadeInDemo 0 1000 with lastTickMs := 1500 } 0 1500 =
      { updateLed fadeInDemo 0 1000 with lastTickMs := 1500 } :=
  c5_fadeIn_monotone_then_latched fadeInDemo 0 100 500 1000 1500 (by decide) (by decide)
    (by decide) (by decide) (by decide) (by decide) (by decide) (by decide) (by decide)
    (by decide) (by decide) (by decide)

/-- C1: temporary override life cycle.  Issuing setTemporaryPreset with a
known preset P2 and duration 0 < D < 2^31 on a LED with no active override
succeeds and marks the override pending; the next scheduler evaluation (at
time now, with the tick clock set to now) applies the mode and colors of
P2, sets the active flag with expiry now + D, and snapshots the
pre-override mode, parameters, colors, brightness and preset; at the first
evaluation time now2 with the expiry reached, the LED reverts exactly to
the snapshot (the revert step also resets phase and the three timestamps to
now2), the active flag is false and stays false on a later evaluation; and
on any LED with an already-active override an evaluation never overwrites
the resume snapshot, so a second temporary preset issued while one is
active preserves the original snapshot. -/
theorem c1_temporary_override_lifecycle (e : EngineState) (index P2 D now now2 now3 : Nat)
    (d2 : PresetDef) (f : EngineState) (iB nowB : Nat)
    (hInit : e.initialized = true) (hIdx : index < e.config.ledCount)
    (hLen : index < e.leds.length)
    (hP2 : findPreset P2 = some d2) (hD0 : 0 < D) (hDH : D < 2147483648)
    (hNow : now < 4294967296) (hLast : e.lastTickMs = now)
    (hAct0 : (e.leds.getD index ledDefault).tempActive = false)
    (hReach : timeReached now2 ((now + D) % 4294967296) = true)
    (hBLen : iB < f.leds.length)
    (hBAct : (f.leds.getD iB ledDefault).tempActive = true) :
    (setTemporaryPreset e index P2 D).1.code = Err.OK ∧
    ((setTemporaryPreset e index P2 D).2.leds.getD index ledDefault).tempPending = true ∧
    ((updateLed (setTemporaryPreset e index P2 D).2 index now).leds.getD index ledDefault).mode = d2.mode ∧
    ((updateLed (setTemporaryPreset e index P2 D).2 index now).leds.getD index ledDefault).color = d2.primary ∧
    ((updateLed (setTemporaryPreset e index P2 D).2 index now).leds.getD index ledDefault).altColor = d2.secondary ∧
    ((updateLed (setTemporaryPreset e index P2 D).2 index now).leds.getD index ledDefault).currentPreset = P2 ∧
    ((updateLed (setTemporaryPreset e index P2 D).2 index now).leds.getD index ledDefault).tempActive = true ∧
    ((updateLed (setTemporaryPreset e index P2 D).2 index now).leds.getD index ledDefault).tempPending = false ∧
    ((updateLed (setTemporaryPreset e index P2 D).2 index now).leds.getD index ledDefault).tempUntilMs = (now + D) % 4294967296 ∧
    ((updateLed (setTemporaryPreset e index P2 D).2 index now).leds.getD index ledDefault).resumeMode = (e.leds.getD index ledDefault).mode ∧
    ((updateLed (setTemporaryPreset e index P2 D).2 index now).leds.getD index ledDefault).resumeParams = (e.leds.getD index ledDefault).params ∧
    ((updateLed (setTemporaryPreset e index P2 D).2 index now).leds.getD index ledDefault).resumeColor = (e.leds.getD index ledDefault).color ∧
    ((updateLed (setTemporaryPreset e index P2 D).2 index now).leds.getD index ledDefault).resumeAltColor = (e.leds.getD index ledDefault).altColor ∧
    ((updateLed (setTemporaryPreset e index P2 D).2 index now).leds.getD index ledDefault).resumeBrightness = (e.leds.getD index ledDefault).brightness ∧
    ((updateLed (setTemporaryPreset e index P2 D).2 index now).leds.getD index ledDefault).resumePreset = (e.leds.getD index ledDefault).currentPreset ∧
    ((updateLed { (updateLed (setTemporaryPreset e index P2 D).2 index now) with lastTickMs := now2 } index now2).leds.getD index ledDefault).tempActive = false ∧
    ((updateLed { (updateLed (setTemporaryPreset e index P2 D).2 index now) with lastTickMs := now2 } index now2).leds.getD index ledDefault).tempPending = false ∧
    ((updateLed { (updateLed (setTemporaryPreset e index P2 D).2 index now) with lastTickMs := now2 } index now2).leds.getD index ledDefault).mode = (e.leds.getD index ledDefault).mode ∧
    ((updateLed { (updateLed (setTemporaryPreset e index P2 D).2 index now) with lastTickMs := now2 } index now2).leds.getD index ledDefault).params = (e.leds.getD index ledDefault).params ∧
    ((updateLed { (updateLed (setTemporaryPreset e index P2 D).2 index now) with lastTickMs := now2 } index now2).leds.getD index ledDefault).color = (e.leds.getD index ledDefault).color ∧
    ((updateLed { (updateLed (setTemporaryPreset e index P2 D).2 index now) with lastTickMs := now2 } index now2).leds.getD index ledDefault).altColor = (e.leds.getD index ledDefault).altColor ∧
    ((updateLed { (updateLed (setTemporaryPreset e index P2 D).2 index now) with lastTickMs := now2 } index now2).leds.getD index ledDefault).brightness = (e.leds.getD index ledDefault).brightness ∧
    ((updateLed { (updateLed (setTemporaryPreset e index P2 D).2 index now) with lastTickMs := now2 } index now2).leds.getD index ledDefault).currentPreset = (e.leds.getD index ledDefault).currentPreset ∧
    ((updateLedTemp { (updateLed (setTemporaryPreset e index P2 D).2 index now) with lastTickMs := now2 } index now2).leds.getD index ledDefault).phase = 0 ∧
    ((updateLedTemp { (updateLed (setTemporaryPreset e index P2 D).2 index now) with lastTickMs := now2 } index now2).leds.getD index ledDefault).modeStartMs = now2 ∧
    ((updateLedTemp { (updateLed (setTemporaryPreset e index P2 D).2 index now) with lastTickMs := now2 } index now2).leds.getD index ledDefault).nextUpdateMs = now2 ∧
    ((updateLedTemp { (updateLed (setTemporaryPreset e index P2 D).2 index now) with lastTickMs := now2 } index now2).leds.getD index ledDefault).phaseEndMs = now2 ∧
    ((updateLed { (updateLed { (updateLed (setTemporaryPreset e index P2 D).2 index now) with lastTickMs := now2 } index now2) with lastTickMs := now3 } index now3).leds.getD index ledDefault).tempActive = false ∧
    ((updateLed f iB nowB).leds.getD iB ledDefault).resumeMode = (f.leds.getD iB ledDefault).resumeMode ∧
    ((updateLed f iB nowB).leds.getD iB ledDefault).resumeParams = (f.leds.getD iB ledDefault).resumeParams ∧
    ((updateLed f iB nowB).leds.getD iB ledDefault).resumeColor = (f.leds.getD iB ledDefault).resumeColor ∧
    ((updateLed f iB nowB).leds.getD iB ledDefault).resumeAltColor = (f.leds.getD iB ledDefault).resumeAltColor ∧
    ((updateLed f iB nowB).leds.getD iB ledDefault).resumeBrightness = (f.leds.getD iB ledDefault).resumeBrightness ∧
    ((updateLed f iB nowB).leds.getD iB ledDefault).resumePreset = (f.leds.getD iB ledDefault).resumePreset := by
  have hiv : indexValid e index = true := by simp [indexValid, hIdx]
  have hPcode : (setTemporaryPreset e index P2 D).1.code = Err.OK := by
    simp only [setTemporaryPreset, setLast]
    rw [if_neg (by rw [hInit]; decide), if_neg (by rw [hiv]; decide),
        if_neg (by omega), if_neg (by simp [hP2])]
    rfl
  have hPleds : (setTemporaryPreset e index P2 D).2.leds = e.leds.set index { e.leds.getD index ledDefault with tempPreset := P2, tempDurationMs := D, tempPending := true } := by
    simp only [setTemporaryPreset, setLast]
    rw [if_neg (by rw [hInit]; decide), if_neg (by rw [hiv]; decide),
        if_neg (by omega), if_neg (by simp [hP2])]
  have hPcfg : (setTemporaryPreset e index P2 D).2.config = e.config := by
    simp only [setTemporaryPreset, setLast]
    rw [if_neg (by rw [hInit]; decide), if_neg (by rw [hiv]; decide),
        if_neg (by omega), if_neg (by simp [hP2])]
  have hPlast : (setTemporaryPreset e index P2 D).2.lastTickMs = e.lastTickMs := by
    simp only [setTemporaryPreset, setLast]
    rw [if_neg (by rw [hInit]; decide), if_neg (by rw [hiv]; decide),
        if_neg (by omega), if_neg (by simp [hP2])]
  have hPend2 : ((setTemporaryPreset e index P2 D).2.leds.getD index ledDefault).tempPending = true := by
    rw [hPleds, getD_set_self _ _ _ _ hLen]
  have hLenP : index < (setTemporaryPreset e index P2 D).2.leds.length := by
    rw [hPleds, List.length_set]; exact hLen
  have hgA := updateLed_getD (setTemporaryPreset e index P2 D).2 index now hLenP
  rw [hPcfg, hPlast, hLast, hPleds, getD_set_self _ _ _ _ hLen] at hgA
  have hActEq := tempActivateLed_activate now now { e.leds.getD index ledDefault with tempPreset := P2, tempDurationMs := D, tempPending := true } d2 rfl hAct0 hP2
  rw [applyPresetLed_tempDurationMs] at hActEq
  dsimp only at hActEq
  have hA : updateLedTempLed now now { e.leds.getD index ledDefault with tempPreset := P2, tempDurationMs := D, tempPending := true } = tempActivateLed now now { e.leds.getD index ledDefault with tempPreset := P2, tempDurationMs := D, tempPending := true } := by
    simp only [updateLedTempLed]
    rw [hActEq]
    exact tempExpireLed_skip_notdue _ _ (timeReached_add_false now D hNow hD0 hDH)
  have hcoreA := updateLedFun_core e.config now now { e.leds.getD index ledDefault with tempPreset := P2, tempDurationMs := D, tempPending := true }
  rw [hA, hActEq] at hcoreA
  simp only [coreFields, Prod.mk.injEq] at hcoreA
  obtain ⟨hAm, hApar, hAcol, hAalt, hAbr, hAcp, hAdp, hAtp, hAtd, hAtu, hApend, hAact,
    hArm, hArp, hArc, hAra, hArb, hArps⟩ := hcoreA
  have gA3 : ((updateLed (setTemporaryPreset e index P2 D).2 index now).leds.getD index ledDefault).mode = d2.mode := by rw [hgA, hAm, applyPresetLed_mode]
  have gA4 : ((updateLed (setTemporaryPreset e index P2 D).2 index now).leds.getD index ledDefault).color = d2.primary := by rw [hgA, hAcol, applyPresetLed_color]
  have gA5 : ((updateLed (setTemporaryPreset e index P2 D).2 index now).leds.getD index ledDefault).altColor = d2.secondary := by rw [hgA, hAalt, applyPresetLed_altColor]
  have gA6 : ((updateLed (setTemporaryPreset e index P2 D).2 index now).leds.getD index ledDefault).currentPreset = P2 := by rw [hgA, hAcp, applyPresetLed_currentPreset]
  have gA7 : ((updateLed (setTemporaryPreset e index P2 D).2 index now).leds.getD index ledDefault).tempActive = true := by rw [hgA]; exact hAact
  have gA8 : ((updateLed (setTemporaryPreset e index P2 D).2 index now).leds.getD index ledDefault).tempPending = false := by rw [hgA]; exact hApend
  have gA9 : ((updateLed (setTemporaryPreset e index P2 D).2 index now).leds.getD index ledDefault).tempUntilMs = (now + D) % 4294967296 := by rw [hgA]; exact hAtu
  have gA10 : ((updateLed (setTemporaryPreset e index P2 D).2 index now).leds.getD index ledDefault).resumeMode = (e.leds.getD index ledDefault).mode := by
    rw [hgA, hArm, applyPresetLed_resumeMode]
  have gA11 : ((updateLed (setTemporaryPreset e index P2 D).2 index now).leds.getD index ledDefault).resumeParams = (e.leds.getD index ledDefault).params := by
    rw [hgA, hArp, applyPresetLed_resumeParams]
  have gA12 : ((updateLed (setTemporaryPreset e index P2 D).2 index now).leds.getD index ledDefault).resumeColor = (e.leds.getD index ledDefault).color := by
    rw [hgA, hArc, applyPresetLed_resumeColor]
  have gA13 : ((updateLed (setTemporaryPreset e index P2 D).2 index now).leds.getD index ledDefault).resumeAltColor = (e.leds.getD index ledDefault).altColor := by
    rw [hgA, hAra, applyPresetLed_resumeAltColor]
  have gA14 : ((updateLed (setTemporaryPreset e index P2 D).2 index now).leds.getD index ledDefault).resumeBrightness = (e.leds.getD index ledDefault).brightness := by
    rw [hgA, hArb, applyPresetLed_resumeBrightness]
  have gA15 : ((updateLed (setTemporaryPreset e index P2 D).2 index now).leds.getD index ledDefault).resumePreset = (e.leds.getD index ledDefault).currentPreset := by
    rw [hgA, hArps, applyPresetLed_resumePreset]
  have hAkeeps := updateLed_keeps (setTemporaryPreset e index P2 D).2 index now
  have hAcfg : (updateLed (setTemporaryPreset e index P2 D).2 index now).config = e.config := hAkeeps.1.trans hPcfg
  have hLenA : index < (updateLed (setTemporaryPreset e index P2 D).2 index now).leds.length := by
    rw [hAkeeps.2.2.2.2, hPleds, List.length_set]; exact hLen
  have hgR := updateLed_getD { (updateLed (setTemporaryPreset e index P2 D).2 index now) with lastTickMs := now2 } index now2 hLenA
  have hr1 : ({ (updateLed (setTemporaryPreset e index P2 D).2 index now) with lastTickMs := now2 } : EngineState).config = e.config := hAcfg
  have hr2 : ({ (updateLed (setTemporaryPreset e index P2 D).2 index now) with lastTickMs := now2 } : EngineState).lastTickMs = now2 := rfl
  have hr3 : ({ (updateLed (setTemporaryPreset e index P2 D).2 index now) with lastTickMs := now2 } : EngineState).leds.getD index ledDefault = ((updateLed (setTemporaryPreset e index P2 D).2 index now).leds.getD index ledDefault) := rfl
  rw [hr1, hr2, hr3] at hgR
  have hexpR : updateLedTempLed now2 now2 ((updateLed (setTemporaryPreset e index P2 D).2 index now).leds.getD index ledDefault) = tempExpireLed now2 ((updateLed (setTemporaryPreset e index P2 D).2 index now).leds.getD index ledDefault) := by
    simp only [updateLedTempLed, tempActivateLed_skip _ _ _ gA8]
  have hexpR2 := tempExpireLed_expire now2 ((updateLed (setTemporaryPreset e index P2 D).2 index now).leds.getD index ledDefault) gA7 (by rw [gA9]; exact hReach)
  have hcoreR := updateLedFun_core e.config now2 now2 ((updateLed (setTemporaryPreset e index P2 D).2 index now).leds.getD index ledDefault)
  rw [hexpR, hexpR2] at hcoreR
  simp only [coreFields, Prod.mk.injEq] at hcoreR
  obtain ⟨hRm, hRpar, hRcol, hRalt, hRbr, hRcp, hRdp, hRtp, hRtd, hRtu, hRpend, hRact,
    hRrm, hRrp, hRrc, hRra, hRrb, hRrps⟩ := hcoreR
  have gR16 : ((updateLed { (updateLed (setTemporaryPreset e index P2 D).2 index now) with lastTickMs := now2 } index now2).leds.getD index ledDefault).tempActive = false := by rw [hgR]; exact hRact
  have gR17 : ((updateLed { (updateLed (setTemporaryPreset e index P2 D).2 index now) with lastTickMs := now2 } index now2).leds.getD index ledDefault).tempPending = false := by rw [hgR]; exact hRpend.trans gA8
  have gR18 : ((updateLed { (updateLed (setTemporaryPreset e index P2 D).2 index now) with lastTickMs := now2 } index now2).leds.getD index ledDefault).mode = (e.leds.getD index ledDefault).mode := by rw [hgR]; exact hRm.trans gA10
  have gR19 : ((updateLed { (updateLed (setTemporaryPreset e index P2 D).2 index now) with lastTickMs := now2 } index now2).leds.getD index ledDefault).params = (e.leds.getD index ledDefault).params := by rw [hgR]; exact hRpar.trans gA11
  have gR20 : ((updateLed { (updateLed (setTemporaryPreset e index P2 D).2 index now) with lastTickMs := now2 } index now2).leds.getD index ledDefault).color = (e.leds.getD index ledDefault).color := by rw [hgR]; exact hRcol.trans gA12
  have gR21 : ((updateLed { (updateLed (setTemporaryPreset e index P2 D).2 index now) with lastTickMs := now2 } index now2).leds.getD index ledDefault).altColor = (e.leds.getD index ledDefault).altColor := by rw [hgR]; exact hRalt.trans gA13
  have gR22 : ((updateLed { (updateLed (setTemporaryPreset e index P2 D).2 index now) with lastTickMs := now2 } index now2).leds.getD index ledDefault).brightness = (e.leds.getD index ledDefault).brightness := by rw [hgR]; exact hRbr.trans gA14
  have gR23 : ((updateLed { (updateLed (setTemporaryPreset e index P2 D).2 index now) with lastTickMs := now2 } index now2).leds.getD index ledDefault).currentPreset = (e.leds.getD index ledDefault).currentPreset := by
    rw [hgR]; exact hRcp.trans gA15
  have hgT := updateLedTemp_getD { (updateLed (setTemporaryPreset e index P2 D).2 index now) with lastTickMs := now2 } index now2 hLenA
  rw [hr2, hr3] at hgT
  rw [hexpR, hexpR2] at hgT
  have gT24 : ((updateLedTemp { (updateLed (setTemporaryPreset e index P2 D).2 index now) with lastTickMs := now2 } index now2).leds.getD index ledDefault).phase = 0 := by rw [hgT]
  have gT25 : ((updateLedTemp { (updateLed (setTemporaryPreset e index P2 D).2 index now) with lastTickMs := now2 } index now2).leds.getD index ledDefault).modeStartMs = now2 := by rw [hgT]
  have gT26 : ((updateLedTemp { (updateLed (setTemporaryPreset e index P2 D).2 index now) with lastTickMs := now2 } index now2).leds.getD index ledDefault).nextUpdateMs = now2 := by rw [hgT]
  have gT27 : ((updateLedTemp { (updateLed (setTemporaryPreset e index P2 D).2 index now) with lastTickMs := now2 } index now2).leds.getD index ledDefault).phaseEndMs = now2 := by rw [hgT]
  have hRkeeps := updateLed_keeps { (updateLed (setTemporaryPreset e index P2 D).2 index now) with lastTickMs := now2 } index now2
  have hLenR : index < (updateLed { (updateLed (setTemporaryPreset e index P2 D).2 index now) with lastTickMs := now2 } index now2).leds.length := by rw [hRkeeps.2.2.2.2]; exact hLenA
  have hgF := updateLed_getD { (updateLed { (updateLed (setTemporaryPreset e index P2 D).2 index now) with lastTickMs := now2 } index now2) with lastTickMs := now3 } index now3 hLenR
  have hf1 : ({ (updateLed { (updateLed (setTemporaryPreset e index P2 D).2 index now) with lastTickMs := now2 } index now2) with lastTickMs := now3 } : EngineState).config = (updateLed { (updateLed (setTemporaryPreset e index P2 D).2 index now) with lastTickMs := now2 } index now2).config := rfl
  have hf2 : ({ (updateLed { (updateLed (setTemporaryPreset e index P2 D).2 index now) with lastTickMs := now2 } index now2) with lastTickMs := now3 } : EngineState).lastTickMs = now3 := rfl
  have hf3 : ({ (updateLed { (updateLed (setTemporaryPreset e index P2 D).2 index now) with lastTickMs := now2 } index now2) with lastTickMs := now3 } : EngineState).leds.getD index ledDefault = ((updateLed { (updateLed (setTemporaryPreset e index P2 D).2 index now) with lastTickMs := now2 } index now2).leds.getD index ledDefault) := rfl
  rw [hf1, hf2, hf3] at hgF
  have hinactF := updateLedTempLed_inactive now3 now3 ((updateLed { (updateLed (setTemporaryPreset e index P2 D).2 index now) with lastTickMs := now2 } index now2).leds.getD index ledDefault) gR17 gR16
  have hcoreF := updateLedFun_core ((updateLed { (updateLed (setTemporaryPreset e index P2 D).2 index now) with lastTickMs := now2 } index now2).config) now3 now3 ((updateLed { (updateLed (setTemporaryPreset e index P2 D).2 index now) with lastTickMs := now2 } index now2).leds.getD index ledDefault)
  rw [hinactF] at hcoreF
  simp only [coreFields, Prod.mk.injEq] at hcoreF
  obtain ⟨hFm, hFpar, hFcol, hFalt, hFbr, hFcp, hFdp, hFtp, hFtd, hFtu, hFpend, hFact,
    hFrm, hFrp, hFrc, hFra, hFrb, hFrps⟩ := hcoreF
  have gF28 : ((updateLed { (updateLed { (updateLed (setTemporaryPreset e index P2 D).2 index now) with lastTickMs := now2 } index now2) with lastTickMs := now3 } index now3).leds.getD index ledDefault).tempActive = false := by rw [hgF]; exact hFact.trans gR16
  have hgB := updateLed_getD f iB nowB hBLen
  have hresB := updateLedTempLed_resume_of_active f.lastTickMs nowB (f.leds.getD iB ledDefault) hBAct
  have hcoreB := updateLedFun_core f.config f.lastTickMs nowB (f.leds.getD iB ledDefault)
  simp only [coreFields, Prod.mk.injEq] at hcoreB
  obtain ⟨hBm, hBpar, hBcol, hBalt, hBbr, hBcp, hBdp, hBtp, hBtd, hBtu, hBpend, hBact,
    hBrm, hBrp, hBrc, hBra, hBrb, hBrps⟩ := hcoreB
  have gB29 : ((updateLed f iB nowB).leds.getD iB ledDefault).resumeMode = (f.leds.getD iB ledDefault).resumeMode := by
    rw [hgB]; exact hBrm.trans hresB.1
  have gB30 : ((updateLed f iB nowB).leds.getD iB ledDefault).resumeParams = (f.leds.getD iB ledDefault).resumeParams := by
    rw [hgB]; exact hBrp.trans hresB.2.1
  have gB31 : ((updateLed f iB nowB).leds.getD iB ledDefault).resumeColor = (f.leds.getD iB ledDefault).resumeColor := by
    rw [hgB]; exact hBrc.trans hresB.2.2.1
  have gB32 : ((updateLed f iB nowB).leds.getD iB ledDefault).resumeAltColor = (f.leds.getD iB ledDefault).resumeAltColor := by
    rw [hgB]; exact hBra.trans hresB.2.2.2.1
  have gB33 : ((updateLed f iB nowB).leds.getD iB ledDefault).resumeBrightness = (f.leds.getD iB ledDefault).resumeBrightness := by
    rw [hgB]; exact hBrb.trans hresB.2.2.2.2.1
  have gB34 : ((updateLed f iB nowB).leds.getD iB ledDefault).resumePreset = (f.leds.getD iB ledDefault).resumePreset := by
    rw [hgB]; exact hBrps.trans hresB.2.2.2.2.2
  exact ⟨hPcode, hPend2, gA3, gA4, gA5, gA6, gA7, gA8, gA9, gA10, gA11, gA12, gA13,
    gA14, gA15, gR16, gR17, gR18, gR19, gR20, gR21, gR22, gR23, gT24, gT25, gT26,
    gT27, gF28, gB29, gB30, gB31, gB32, gB33, gB34⟩

/-- Demonstration state for the override life cycle: one LED showing the
Ready preset (Solid green), idle clock at 0, no override. -/
def c1Demo : EngineState :=
  { initialized := true
    config := { dataPin := 1, ledCount := 1, colorOrder := 0, rmtChannel := 0,
                globalBrightness := 255, smoothStepMs := 20 }
    lastTickMs := 0
    frameDirty := false
    leds := [{ mode := Mode.Solid, color := kColorGreen, brightness := 255,
               currentPreset := presetReady, nextUpdateMs := kNever }]
    frame := [kColorOff]
    lastStatus := Ok }

/-- Demonstration state with an already-active temporary override whose
resume snapshot holds the pre-override Ready look. -/
def c1ActiveDemo : EngineState :=
  { initialized := true
    config := { dataPin := 1, ledCount := 1, colorOrder := 0, rmtChannel := 0,
                globalBrightness := 255, smoothStepMs := 20 }
    lastTickMs := 40
    frameDirty := false
    leds := [{ mode := Mode.BlinkFast, color := kColorRed, brightness := 255,
               currentPreset := presetError, tempPreset := presetError,
               tempDurationMs := 200, tempUntilMs := 240, tempActive := true,
               nextUpdateMs := 0, resumeMode := Mode.Solid,
               resumeColor := kColorGreen, resumeBrightness := 200,
               resumePreset := presetReady }]
    frame := [kColorOff]
    lastStatus := Ok }

/-- The catalog entry for the Error preset, as resolved by findPreset. -/
def c1PresetDef : PresetDef :=
  ⟨presetError, Mode.BlinkFast, kColorRed, kColorOff, false⟩

/-- C1 witness: the full life cycle on c1Demo with the Error preset for
200 ms issued at time 0, activated by the tick at 0, reverted at 220, still
inactive at 300; and on c1ActiveDemo a tick at 50 preserves the snapshot. -/
theorem c1_temporary_override_witness :
    (setTemporaryPreset c1Demo 0 presetError 200).1.code = Err.OK ∧
    ((setTemporaryPreset c1Demo 0 presetError 200).2.leds.getD 0 ledDefault).tempPending = true ∧
    ((updateLed (setTemporaryPreset c1Demo 0 presetError 200).2 0 0).leds.getD 0 ledDefault).mode = c1PresetDef.mode ∧
    ((updateLed (setTemporaryPreset c1Demo 0 presetError 200).2 0 0).leds.getD 0 ledDefault).color = c1PresetDef.primary ∧
    ((updateLed (setTemporaryPreset c1Demo 0 presetError 200).2 0 0).leds.getD 0 ledDefault).altColor = c1PresetDef.secondary ∧
    ((updateLed (setTemporaryPreset c1Demo 0 presetError 200).2 0 0).leds.getD 0 ledDefault).currentPreset = presetError ∧
    ((updateLed (setTemporaryPreset c1Demo 0 presetError 200).2 0 0).leds.getD 0 ledDefault).tempActive = true ∧
    ((updateLed (setTemporaryPreset c1Demo 0 presetError 200).2 0 0).leds.getD 0 ledDefault).tempPending = false ∧
    ((updateLed (setTemporaryPreset c1Demo 0 presetError 200).2 0 0).leds.getD 0 ledDefault).tempUntilMs = (0 + 200) % 4294967296 ∧
    ((updateLed (setTemporaryPreset c1Demo 0 presetError 200).2 0 0).leds.getD 0 ledDefault).resumeMode = (c1Demo.leds.getD 0 ledDefault).mode ∧
    ((updateLed (setTemporaryPreset c1Demo 0 presetError 200).2 0 0).leds.getD 0 ledDefault).resumeParams = (c1Demo.leds.getD 0 ledDefault).params ∧
    ((updateLed (setTemporaryPreset c1Demo 0 presetError 200).2 0 0).leds.getD 0 ledDefault).resumeColor = (c1Demo.leds.getD 0 ledDefault).color ∧
    ((updateLed (setTemporaryPreset c1Demo 0 presetError 200).2 0 0).leds.getD 0 ledDefault).resumeAltColor = (c1Demo.leds.getD 0 ledDefault).altColor ∧
    ((updateLed (setTemporaryPreset c1Demo 0 presetError 200).2 0 0).leds.getD 0 ledDefault).resumeBrightness = (c1Demo.leds.getD 0 ledDefault).brightness ∧
    ((updateLed (setTemporaryPreset c1Demo 0 presetError 200).2 0 0).leds.getD 0 ledDefault).resumePreset = (c1Demo.leds.getD 0 ledDefault).currentPreset ∧
    ((updateLed { (updateLed (setTemporaryPreset c1Demo 0 presetError 200).2 0 0) with lastTickMs := 220 } 0 220).leds.getD 0 ledDefault).tempActive = false ∧
    ((updateLed { (updateLed (setTemporaryPreset c1Demo 0 presetError 200).2 0 0) with lastTickMs := 220 } 0 220).leds.getD 0 ledDefault).tempPending = false ∧
    ((updateLed { (updateLed (setTemporaryPreset c1Demo 0 presetError 200).2 0 0) with lastTickMs := 220 } 0 220).leds.getD 0 ledDefault).mode = (c1Demo.leds.getD 0 ledDefault).mode ∧
    ((updateLed { (updateLed (setTemporaryPreset c1Demo 0 presetError 200).2 0 0) with lastTickMs := 220 } 0 220).leds.getD 0 ledDefault).params = (c1Demo.leds.getD 0 ledDefault).params ∧
    ((updateLed { (updateLed (setTemporaryPreset c1Demo 0 presetError 200).2 0 0) with lastTickMs := 220 } 0 220).leds.getD 0 ledDefault).color = (c1Demo.leds.getD 0 ledDefault).color ∧
    ((updateLed { (updateLed (setTemporaryPreset c1Demo 0 presetError 200).2 0 0) with lastTickMs := 220 } 0 220).leds.getD 0 ledDefault).altColor = (c1Demo.leds.getD 0 ledDefault).altColor ∧
    ((updateLed { (updateLed (setTemporaryPreset c1Demo 0 presetError 200).2 0 0) with lastTickMs := 220 } 0 220).leds.getD 0 ledDefault).brightness = (c1Demo.leds.getD 0 ledDefault).brightness ∧
    ((updateLed { (updateLed (setTemporaryPreset c1Demo 0 presetError 200).2 0 0) with lastTickMs := 220 } 0 220).leds.getD 0 ledDefault).currentPreset = (c1Demo.leds.getD 0 ledDefault).currentPreset ∧
    ((updateLedTemp { (updateLed (setTemporaryPreset c1Demo 0 presetError 200).2 0 0) with lastTickMs := 220 } 0 220).leds.getD 0 ledDefault).phase = 0 ∧
    ((updateLedTemp { (updateLed (setTemporaryPreset c1Demo 0 presetError 200).2 0 0) with lastTickMs := 220 } 0 220).leds.getD 0 ledDefault).modeStartMs = 220 ∧
    ((updateLedTemp { (updateLed (setTemporaryPreset c1Demo 0 presetError 200).2 0 0) with lastTickMs := 220 } 0 220).leds.getD 0 ledDefault).nextUpdateMs = 220 ∧
    ((updateLedTemp { (updateLed (setTemporaryPreset c1Demo 0 presetError 200).2 0 0) with lastTickMs := 220 } 0 220).leds.getD 0 ledDefault).phaseEndMs = 220 ∧
    ((updateLed { (updateLed { (updateLed (setTemporaryPreset c1Demo 0 presetError 200).2 0 0) with lastTickMs := 220 } 0 220) with lastTickMs := 300 } 0 300).leds.getD 0 ledDefault).tempActive = false ∧
    ((updateLed c1ActiveDemo 0 50).leds.getD 0 ledDefault).resumeMode = (c1ActiveDemo.leds.getD 0 ledDefault).resumeMode ∧
    ((updateLed c1ActiveDemo 0 50).leds.getD 0 ledDefault).resumeParams = (c1ActiveDemo.leds.getD 0 ledDefault).resumeParams ∧
    ((updateLed c1ActiveDemo 0 50).leds.getD 0 ledDefault).resumeColor = (c1ActiveDemo.leds.getD 0 ledDefault).resumeColor ∧
    ((updateLed c1ActiveDemo 0 50).leds.getD 0 ledDefault).resumeAltColor = (c1ActiveDemo.leds.getD 0 ledDefault).resumeAltColor ∧
    ((updateLed c1ActiveDemo 0 50).leds.getD 0 ledDefault).resumeBrightness = (c1ActiveDemo.leds.getD 0 ledDefault).resumeBrightness ∧
    ((updateLed c1ActiveDemo 0 50).leds.getD 0 ledDefault).resumePreset = (c1ActiveDemo.leds.getD 0 ledDefault).resumePreset :=
  c1_temporary_override_lifecycle c1Demo 0 presetError 200 0 220 300 c1PresetDef
    c1ActiveDemo 0 50 rfl (by decide) (by decide) rfl (by decide) (by decide)
    (by decide) rfl (by decide) (by decide) (by decide) (by decide)

/-- The sanitizer establishes every parameter invariant the spec lists. -/
theorem sanitizeParams_inv (m : Mode) (p : ModeParams) : ParamInv m (sanitizeParams m p) := by
  simp only [sanitizeParams]
  split <;> split <;> split <;> split <;> split <;>
    simp_all only [not_and, not_lt, ParamInv] <;>
    refine ⟨by first | omega | (simp_all; omega) | simp_all,
      by first | omega | (simp_all; omega) | simp_all,
      by first | omega | (simp_all; omega) | simp_all,
      fun hm => by first | omega | (simp_all; omega) | simp_all,
      fun hm => by first | omega | (simp_all; omega) | simp_all⟩

/-- setModeInternalLed stores the sanitized parameters with the new mode
and keeps the override snapshot. -/
theorem setModeInternalLed_inv (lastTickMs : Nat) (m : Mode) (p : ModeParams)
    (led : LedState) (h : LedInv led) : LedInv (setModeInternalLed lastTickMs m p led) :=
  ⟨sanitizeParams_inv m p, h.2⟩

/-- applyPresetLed stores sanitized mode defaults and keeps the snapshot. -/
theorem applyPresetLed_inv (lastTickMs preset : Nat) (d : PresetDef) (led : LedState)
    (h : LedInv led) : LedInv (applyPresetLed lastTickMs preset d led) :=
  ⟨by rw [LedInv] at h
      rw [applyPresetLed_mode, applyPresetLed_params]
      exact sanitizeParams_inv _ _,
   by rw [applyPresetLed_resumeMode, applyPresetLed_resumeParams]; exact h.2⟩

/-- Override activation preserves the LED invariant: the snapshot copies
fields that already satisfy it and the applied preset is sanitized. -/
theorem tempActivateLed_inv (lastTickMs now : Nat) (led : LedState) (h : LedInv led) :
    LedInv (tempActivateLed lastTickMs now led) := by
  unfold tempActivateLed
  split
  · split
    · split
      · exact ⟨h.1, h.1⟩
      · exact applyPresetLed_inv _ _ _ _ ⟨h.1, h.1⟩
    · split
      · exact h
      · exact applyPresetLed_inv _ _ _ _ h
  · exact h

/-- Override expiry preserves the LED invariant: the restored fields come
from the snapshot, which satisfies it. -/
theorem tempExpireLed_inv (now : Nat) (led : LedState) (h : LedInv led) :
    LedInv (tempExpireLed now led) := by
  unfold tempExpireLed
  split
  · exact ⟨h.2, h.2⟩
  · exact h

/-- Mode dispatch never touches mode, parameters or the snapshot. -/
theorem dispatchMode_inv (cfg : Config) (now : Nat) (led : LedState) (h : LedInv led) :
    LedInv (dispatchMode cfg now led) := by
  have hc := dispatchMode_core cfg now led
  simp only [coreFields, Prod.mk.injEq] at hc
  obtain ⟨hm, hp, _, _, _, _, _, _, _, _, _, _, hrm, hrp, _, _, _, _⟩ := hc
  exact ⟨by rw [hm, hp]; exact h.1, by rw [hrm, hrp]; exact h.2⟩

/-- The invariant of all LED slots survives writing one slot whose new
record satisfies it (writes past the end are dropped). -/
theorem ledsInv_set (l : List LedState) (i : Nat) (a : LedState)
    (h : ∀ led ∈ l, LedInv led) (ha : i < l.length → LedInv a) :
    ∀ led ∈ l.set i a, LedInv led := by
  intro led hm
  by_cases hi : i < l.length
  · rcases mem_of_mem_set l i a led hm with hml | he
    · exact h _ hml
    · exact he ▸ ha hi
  · rw [List.set_eq_of_length_le (Nat.le_of_not_lt hi)] at hm
    exact h _ hm

/-- A read LED slot satisfies the invariant when all slots do. -/
theorem ledsInv_getD (l : List LedState) (i : Nat)
    (h : ∀ led ∈ l, LedInv led) (hi : i < l.length) : LedInv (l.getD i ledDefault) := by
  rw [List.getD_eq_getElem l ledDefault hi]
  exact h _ (List.getElem_mem hi)

/-- The temporary-override engine step preserves the state invariant. -/
theorem updateLedTemp_inv (e : EngineState) (index now : Nat) (h : StateInv e) :
    StateInv (updateLedTemp e index now) := by
  simp only [updateLedTemp]
  split
  · intro led hm
    rw [(refreshLed_keeps _ _).1] at hm
    refine ledsInv_set _ _ _ ?_ ?_ led hm
    · split
      · split
        · exact ledsInv_set _ _ _ h
            (fun hi => tempActivateLed_inv _ _ _ (ledsInv_getD _ _ h hi))
        · intro l hl
          rw [(refreshLed_keeps _ _).1] at hl
          exact ledsInv_set _ _ _ h
            (fun hi => tempActivateLed_inv _ _ _ (ledsInv_getD _ _ h hi)) l hl
      · exact h
    · intro hi
      refine tempExpireLed_inv _ _ (tempActivateLed_inv _ _ _ (ledsInv_getD _ _ h ?_))
      split at hi
      · split at hi
        · simp only [List.length_set] at hi
          exact hi
        · rw [(refreshLed_keeps _ _).1] at hi
          simp only [List.length_set] at hi
          exact hi
      · exact hi
  · split
    · split
      · exact ledsInv_set _ _ _ h
          (fun hi => tempActivateLed_inv _ _ _ (ledsInv_getD _ _ h hi))
      · intro l hl
        rw [(refreshLed_keeps _ _).1] at hl
        exact ledsInv_set _ _ _ h
          (fun hi => tempActivateLed_inv _ _ _ (ledsInv_getD _ _ h hi)) l hl
    · exact h

/-- One scheduler evaluation of one LED preserves the state invariant. -/
theorem updateLed_inv (e : EngineState) (index now : Nat) (h : StateInv e) :
    StateInv (updateLed e index now) := by
  have h1 := updateLedTemp_inv e index now h
  simp only [updateLed]
  split
  · exact h1
  · split
    · exact h1
    · intro led hm
      rw [(refreshLedW_keeps _ _ _ _).1] at hm
      exact ledsInv_set _ _ _ h1
        (fun hi => dispatchMode_inv _ _ _ (ledsInv_getD _ _ h1 hi)) led hm

/-- Folding the per-LED evaluation over any index list preserves the state
invariant. -/
theorem foldlUpdate_inv (now : Nat) : ∀ (is : List Nat) (e : EngineState), StateInv e →
    StateInv (is.foldl (fun acc i => updateLed acc i now) e)
  | [], _, h => h
  | i :: is, e, h => foldlUpdate_inv now is _ (updateLed_inv e i now h)

/-- tick preserves the state invariant. -/
theorem tick_inv (e : EngineState) (now : Nat) (h : StateInv e) : StateInv (tick e now) := by
  simp only [tick]
  split
  · exact h
  · have h2 := foldlUpdate_inv now (List.range e.config.ledCount)
      { e with lastTickMs := now } h
    split
    · exact h2
    · exact h2

/-- setMode preserves the state invariant: the stored parameters are the
sanitized ones. -/
theorem setMode_inv (e : EngineState) (index : Nat) (m : Mode) (p : ModeParams)
    (h : StateInv e) : StateInv (setMode e index m p).2 := by
  unfold setMode setLast
  split
  · exact h
  · split
    · exact h
    · split
      · exact h
      · simp only [setModeInternal]
        intro led hm
        have hbase : ∀ l ∈ e.leds.set index { e.leds.getD index ledDefault with currentPreset := presetOff }, LedInv l :=
          ledsInv_set _ _ _ h (fun hi => ledsInv_getD _ _ h hi)
        refine ledsInv_set _ _ _ hbase ?_ led hm
        intro hi
        exact setModeInternalLed_inv _ _ _ _ (ledsInv_getD _ _ hbase hi)

/-- setColorInternal preserves the state invariant. -/
theorem setColorInternal_inv (e : EngineState) (index : Nat) (c : RgbColor)
    (secondary : Bool) (h : StateInv e) : StateInv (setColorInternal e index c secondary).2 := by
  unfold setColorInternal
  intro led hm
  rw [(refreshLed_keeps _ _).1] at hm
  split at hm
  · have hbase : ∀ l ∈ e.leds.set index { e.leds.getD index ledDefault with altColor := c }, LedInv l :=
      ledsInv_set _ _ _ h (fun hi => ledsInv_getD _ _ h hi)
    exact hbase led hm
  · have hbase : ∀ l ∈ e.leds.set index { e.leds.getD index ledDefault with color := c }, LedInv l :=
      ledsInv_set _ _ _ h (fun hi => ledsInv_getD _ _ h hi)
    exact hbase led hm

/-- setColor preserves the state invariant. -/
theorem setColor_inv (e : EngineState) (index : Nat) (c : RgbColor)
    (h : StateInv e) : StateInv (setColor e index c).2 := by
  unfold setColor setLast
  split
  · exact h
  · split
    · exact h
    · have hbase : StateInv { e with leds := e.leds.set index { e.leds.getD index ledDefault with currentPreset := presetOff } } :=
        ledsInv_set _ _ _ h (fun hi => ledsInv_getD _ _ h hi)
      have hc := setColorInternal_inv _ index c false hbase
      intro led hm
      exact hc led hm

/-- setSecondaryColor preserves the state invariant. -/
theorem setSecondaryColor_inv (e : EngineState) (index : Nat) (c : RgbColor)
    (h : StateInv e) : StateInv (setSecondaryColor e index c).2 := by
  unfold setSecondaryColor setLast
  split
  · exact h
  · split
    · exact h
    · have hbase : StateInv { e with leds := e.leds.set index { e.leds.getD index ledDefault with currentPreset := presetOff } } :=
        ledsInv_set _ _ _ h (fun hi => ledsInv_getD _ _ h hi)
      have hc := setColorInternal_inv _ index c true hbase
      intro led hm
      exact hc led hm

/-- applyPresetInternal preserves the state invariant. -/
theorem applyPresetInternal_inv (e : EngineState) (index preset : Nat)
    (h : StateInv e) : StateInv (applyPresetInternal e index preset).2 := by
  unfold applyPresetInternal
  split
  · exact h
  · intro led hm
    rw [(refreshLed_keeps _ _).1] at hm
    exact ledsInv_set _ _ _ h
      (fun hi => applyPresetLed_inv _ _ _ _ (ledsInv_getD _ _ h hi)) led hm

/-- setPreset preserves the state invariant. -/
theorem setPreset_inv (e : EngineState) (index preset : Nat)
    (h : StateInv e) : StateInv (setPreset e index preset).2 := by
  unfold setPreset setLast
  split
  · exact h
  · split
    · exact h
    · have hbase : StateInv { e with leds := e.leds.set index { e.leds.getD index ledDefault with tempActive := false, tempPending := false } } :=
        ledsInv_set _ _ _ h (fun hi => ledsInv_getD _ _ h hi)
      have hc := applyPresetInternal_inv _ index preset hbase
      intro led hm
      exact hc led hm

/-- setDefaultPreset preserves the state invariant. -/
theorem setDefaultPreset_inv (e : EngineState) (index preset : Nat)
    (h : StateInv e) : StateInv (setDefaultPreset e index preset).2 := by
  unfold setDefaultPreset setLast
  split
  · exact h
  · split
    · exact h
    · split
      · exact h
      · have hbase : StateInv { e with leds := e.leds.set index { e.leds.getD index ledDefault with defaultPreset := preset } } :=
          ledsInv_set _ _ _ h (fun hi => ledsInv_getD _ _ h hi)
        have hc := applyPresetInternal_inv _ index preset hbase
        dsimp only
        split
        · intro led hm
          exact hc led hm
        · intro led hm
          exact hbase led hm

/-- setTemporaryPreset preserves the state invariant. -/
theorem setTemporaryPreset_inv (e : EngineState) (index preset durationMs : Nat)
    (h : StateInv e) : StateInv (setTemporaryPreset e index preset durationMs).2 := by
  unfold setTemporaryPreset setLast
  split
  · exact h
  · split
    · exact h
    · split
      · exact h
      · split
        · exact h
        · exact ledsInv_set _ _ _ h (fun hi => ledsInv_getD _ _ h hi)

/-- setBrightness preserves the state invariant. -/
theorem setBrightness_inv (e : EngineState) (index level : Nat)
    (h : StateInv e) : StateInv (setBrightness e index level).2 := by
  unfold setBrightness setLast
  split
  · exact h
  · split
    · exact h
    · intro led hm
      rw [(refreshLed_keeps _ _).1] at hm
      have hbase : ∀ l ∈ e.leds.set index { e.leds.getD index ledDefault with brightness := level }, LedInv l :=
        ledsInv_set _ _ _ h (fun hi => ledsInv_getD _ _ h hi)
      exact hbase led hm

/-- Folding the output refresh over any index list keeps the LED list. -/
theorem foldlRefresh_leds : ∀ (is : List Nat) (e : EngineState),
    (is.foldl (fun acc i => refreshLed acc i) e).leds = e.leds
  | [], _ => rfl
  | i :: is, e => (foldlRefresh_leds is _).trans (refreshLed_keeps e i).1

/-- setGlobalBrightness preserves the state invariant. -/
theorem setGlobalBrightness_inv (e : EngineState) (level : Nat)
    (h : StateInv e) : StateInv (setGlobalBrightness e level).2 := by
  unfold setGlobalBrightness setLast
  split
  · exact h
  · intro led hm
    rw [foldlRefresh_leds] at hm
    exact h led hm

/-- Every public operation preserves the state invariant. -/
theorem applyOp_inv (e : EngineState) (op : Op) (h : StateInv e) :
    StateInv (applyOp e op) := by
  cases op with
  | opTick now => exact tick_inv e now h
  | opSetMode index mode params => exact setMode_inv e index mode params h
  | opSetColor index color => exact setColor_inv e index color h
  | opSetSecondaryColor index color => exact setSecondaryColor_inv e index color h
  | opSetPreset index preset => exact setPreset_inv e index preset h
  | opSetDefaultPreset index preset => exact setDefaultPreset_inv e index preset h
  | opSetTemporaryPreset index preset durationMs =>
      exact setTemporaryPreset_inv e index preset durationMs h
  | opSetBrightness index level => exact setBrightness_inv e index level h
  | opSetGlobalBrightness level => exact setGlobalBrightness_inv e level h

/-- Any sequence of public operations preserves the state invariant. -/
theorem runOps_inv : ∀ (ops : List Op) (e : EngineState), StateInv e →
    StateInv (runOps e ops)
  | [], _, h => h
  | op :: ops, e, h => runOps_inv ops _ (applyOp_inv e op h)

/-- A successfully begun engine satisfies the LED-slot invariant: begin
fills every slot with the header-default LED record (only the flicker LFSR
seed varies per slot), whose parameters and snapshot parameters carry the
header defaults, which satisfy every parameter invariant. -/
theorem begin_inv (e : EngineState) (config : Config) :
    (begin e config).1.code = Err.OK → StateInv (begin e config).2 := by
  simp only [begin, setLast]
  split
  · intro h
    simp at h
  · split
    · intro h
      simp at h
    · split
      · intro h
        simp at h
      · split
        · intro h
          simp at h
        · intro _ led hm
          simp only [List.mem_map] at hm
          obtain ⟨i, _, rfl⟩ := hm
          exact (by decide : LedInv ledDefault)

/-- C7: sanitized parameters satisfy the spec invariants (period at least
2, on-time clamped to the period, min level at most max level, rise at
least 1 for FadeIn, fall at least 1 for FadeOut); the mode setter stores
exactly the sanitized parameters with the requested mode, so sanitization
happens once at assignment; a successful begin establishes the invariant
over every LED slot (the header-default parameters already satisfy it);
the invariant, covering the override snapshots too, is preserved by every
public operation; hence every LED state reachable by any operation
sequence from a begun engine satisfies the invariants. -/
theorem c7_sanitized_params_invariants :
    (∀ (m : Mode) (p : ModeParams), ParamInv m (sanitizeParams m p)) ∧
    (∀ (lastTickMs : Nat) (m : Mode) (p : ModeParams) (led : LedState),
      (setModeInternalLed lastTickMs m p led).params = sanitizeParams m p ∧
      (setModeInternalLed lastTickMs m p led).mode = m) ∧
    (∀ (e : EngineState) (config : Config),
      (begin e config).1.code = Err.OK → StateInv (begin e config).2) ∧
    (∀ (e : EngineState) (ops : List Op), StateInv e → StateInv (runOps e ops)) ∧
    (∀ (e : EngineState) (config : Config) (ops : List Op),
      (begin e config).1.code = Err.OK → StateInv (runOps (begin e config).2 ops)) :=
  ⟨sanitizeParams_inv, fun _ _ _ _ => ⟨rfl, rfl⟩, begin_inv,
   fun e ops h => runOps_inv ops e h,
   fun e config ops h => runOps_inv ops _ (begin_inv e config h)⟩

/-- A valid one-LED configuration for exercising the invariant chain. -/
def c7Config : Config :=
  { dataPin := 1, ledCount := 1, colorOrder := 0, rmtChannel := 0,
    globalBrightness := 255, smoothStepMs := 20 }

/-- C7 witness: begin succeeds on c7Config from a fresh engine, and the
slot invariant holds after a concrete operation sequence mixing a mode
change, ticks and a temporary preset. -/
theorem c7_witness :
    (begin {} c7Config).1.code = Err.OK ∧
    StateInv (runOps (begin {} c7Config).2 [Op.opSetMode 0 Mode.FadeIn {}, Op.opTick 5,
      Op.opSetTemporaryPreset 0 presetError 100, Op.opTick 10, Op.opTick 200]) :=
  ⟨by decide,
   c7_sanitized_params_invariants.2.2.2.2 {} c7Config
     [Op.opSetMode 0 Mode.FadeIn {}, Op.opTick 5,
      Op.opSetTemporaryPreset 0 presetError 100, Op.opTick 10, Op.opTick 200]
     (by decide)⟩

end StatusLed
